import Mathlib

/-!
Verification development for the quiz-solver orchestration engine
(`app/quiz_solver.py`, `app/llm_interface.py`, `app/browser.py`,
`app/utils.py`, `app/main.py`).

The Python code is shallowly embedded: dynamically typed Python values
become the inductive type `PyVal`; functions that can raise become
`Except PyExn`-valued functions; external collaborators (the headless
browser, the reasoning LLM endpoint, file downloads, API calls and the
grading endpoint) become explicit oracle parameters collected in `Ext`;
wall-clock reads become an explicit stream `clock : Nat → ℚ` of elapsed
values.  Machine reals (`time.time()` differences) are modelled as `ℚ`;
Python `float` literals are modelled as the rationals they denote
(no claim in this development depends on binary rounding).
-/

namespace QS

/-- A dynamically typed Python value, as used by the quiz solver:
the JSON-serialisable fragment (None, bool, int, float, str, list, dict)
is all the orchestration code ever handles. -/
inductive PyVal where
  | none : PyVal
  | bool (b : Bool)
  | int (n : Int)
  | float (q : ℚ)
  | str (s : String)
  | list (xs : List PyVal)
  | dict (kvs : List (String × PyVal))

mutual

/-- Structural boolean equality on `PyVal` (strict, unlike Python `==`:
used only to obtain decidable propositional equality). -/
def pyValBEq : PyVal → PyVal → Bool
  | .none, .none => true
  | .bool a, .bool b => a == b
  | .int a, .int b => a == b
  | .float a, .float b => a == b
  | .str a, .str b => a == b
  | .list a, .list b => pyValListBEq a b
  | .dict a, .dict b => pyValKVsBEq a b
  | _, _ => false

/-- Elementwise `pyValBEq` on lists. -/
def pyValListBEq : List PyVal → List PyVal → Bool
  | [], [] => true
  | a :: as_, b :: bs => pyValBEq a b && pyValListBEq as_ bs
  | _, _ => false

/-- Elementwise `pyValBEq` on key/value lists. -/
def pyValKVsBEq : List (String × PyVal) → List (String × PyVal) → Bool
  | [], [] => true
  | (ka, va) :: as_, (kb, vb) :: bs =>
    ka == kb && pyValBEq va vb && pyValKVsBEq as_ bs
  | _, _ => false

end

mutual

theorem pyValBEq_iff : ∀ a b : PyVal, pyValBEq a b = true ↔ a = b
  | .none, .none => by simp [pyValBEq]
  | .bool a, .bool b => by simp [pyValBEq]
  | .int a, .int b => by simp [pyValBEq]
  | .float a, .float b => by simp [pyValBEq]
  | .str a, .str b => by simp [pyValBEq]
  | .list a, .list b => by
    simpa [pyValBEq] using pyValListBEq_iff a b
  | .dict a, .dict b => by
    simpa [pyValBEq] using pyValKVsBEq_iff a b
  | .none, .bool _ | .none, .int _ | .none, .float _ | .none, .str _
  | .none, .list _ | .none, .dict _
  | .bool _, .none | .bool _, .int _ | .bool _, .float _ | .bool _, .str _
  | .bool _, .list _ | .bool _, .dict _
  | .int _, .none | .int _, .bool _ | .int _, .float _ | .int _, .str _
  | .int _, .list _ | .int _, .dict _
  | .float _, .none | .float _, .bool _ | .float _, .int _ | .float _, .str _
  | .float _, .list _ | .float _, .dict _
  | .str _, .none | .str _, .bool _ | .str _, .int _ | .str _, .float _
  | .str _, .list _ | .str _, .dict _
  | .list _, .none | .list _, .bool _ | .list _, .int _ | .list _, .float _
  | .list _, .str _ | .list _, .dict _
  | .dict _, .none | .dict _, .bool _ | .dict _, .int _ | .dict _, .float _
  | .dict _, .str _ | .dict _, .list _ => by simp [pyValBEq]

theorem pyValListBEq_iff : ∀ a b : List PyVal, pyValListBEq a b = true ↔ a = b
  | [], [] => by simp [pyValListBEq]
  | a :: as_, b :: bs => by
    simp only [pyValListBEq, Bool.and_eq_true, List.cons.injEq]
    rw [pyValBEq_iff a b, pyValListBEq_iff as_ bs]
  | [], _ :: _ => by simp [pyValListBEq]
  | _ :: _, [] => by simp [pyValListBEq]

theorem pyValKVsBEq_iff :
    ∀ a b : List (String × PyVal), pyValKVsBEq a b = true ↔ a = b
  | [], [] => by simp [pyValKVsBEq]
  | (ka, va) :: as_, (kb, vb) :: bs => by
    simp only [pyValKVsBEq, Bool.and_eq_true, List.cons.injEq, Prod.mk.injEq,
      beq_iff_eq]
    rw [pyValBEq_iff va vb, pyValKVsBEq_iff as_ bs]
  | [], _ :: _ => by simp [pyValKVsBEq]
  | _ :: _, [] => by simp [pyValKVsBEq]

end

instance : DecidableEq PyVal := fun a b =>
  decidable_of_iff (pyValBEq a b = true) (pyValBEq_iff a b)

/-- Exceptions that the embedded code can raise. -/
inductive PyExn where
  | attributeError (msg : String)
  | typeError (msg : String)
  | other (msg : String)
deriving DecidableEq

/-- Python truthiness (`bool(v)`) on the modelled fragment. -/
def pyTruthy : PyVal → Bool
  | .none => false
  | .bool b => b
  | .int n => n != 0
  | .float q => q != 0
  | .str s => s != ""
  | .list xs => !xs.isEmpty
  | .dict kvs => !kvs.isEmpty

/-- Python `==` on the modelled fragment.  Numeric types compare across
`bool`/`int`/`float` (Python treats `True == 1`); containers compare
structurally. -/
def pyEq : PyVal → PyVal → Bool
  | .none, .none => true
  | .bool a, .bool b => a == b
  | .bool a, .int b => (if a then (1 : Int) else 0) == b
  | .int a, .bool b => a == (if b then (1 : Int) else 0)
  | .bool a, .float b => (if a then (1 : ℚ) else 0) == b
  | .float a, .bool b => a == (if b then (1 : ℚ) else 0)
  | .int a, .int b => a == b
  | .int a, .float b => (a : ℚ) == b
  | .float a, .int b => a == (b : ℚ)
  | .float a, .float b => a == b
  | .str a, .str b => a == b
  | .list a, .list b => pyEqList a b
  | .dict a, .dict b => pyEqDict a b
  | _, _ => false
where
  pyEqList : List PyVal → List PyVal → Bool
    | [], [] => true
    | a :: as_, b :: bs => pyEq a b && pyEqList as_ bs
    | _, _ => false
  pyEqDict : List (String × PyVal) → List (String × PyVal) → Bool
    | [], [] => true
    | (ka, va) :: as_, (kb, vb) :: bs => ka == kb && pyEq va vb && pyEqDict as_ bs
    | _, _ => false

/-- `v in xs` for a Python list of values (used for
`raw_answer not in [None, "", "unknown", "Unknown"]`). -/
def pyIn (v : PyVal) (xs : List PyVal) : Bool :=
  xs.any (fun x => pyEq v x)

/-- `d.get(key)` (default `None`): association-list lookup on a dict.
On a non-dict receiver Python raises `AttributeError`; callers that can
reach that case model it separately. -/
def pyGet (v : PyVal) (key : String) : PyVal :=
  match v with
  | .dict kvs =>
    match kvs.lookup key with
    | some x => x
    | Option.none => .none
  | _ => .none

/-- `d.get(key, default)`. -/
def pyGetD (v : PyVal) (key : String) (dflt : PyVal) : PyVal :=
  match v with
  | .dict kvs =>
    match kvs.lookup key with
    | some x => x
    | Option.none => dflt
  | _ => dflt

/-- `key in d` for a dict. -/
def pyHasKey (v : PyVal) (key : String) : Bool :=
  match v with
  | .dict kvs => (kvs.lookup key).isSome
  | _ => false

/-- Insert a key into a dict association list, Python-style: an existing
key is overwritten in place, a new key is appended (insertion order). -/
def dictInsert (kvs : List (String × PyVal)) (k : String) (v : PyVal) :
    List (String × PyVal) :=
  match kvs with
  | [] => [(k, v)]
  | (k0, v0) :: rest =>
    if k0 = k then (k0, v) :: rest else (k0, v0) :: dictInsert rest k v

/-! ### Character classes and ASCII string helpers

Python string methods used by the solver, modelled over the ASCII range
(every string any claim touches is ASCII). -/

/-- The six ASCII whitespace characters recognised by Python `str.strip`
and by the regex class `\s`. -/
def isPySpace (c : Char) : Bool :=
  c = ' ' || c = Char.ofNat 9 || c = Char.ofNat 10 || c = Char.ofNat 13 ||
    c = Char.ofNat 11 || c = Char.ofNat 12

/-- Regex class `\w` (ASCII): letters, digits, underscore. -/
def isWordChar (c : Char) : Bool :=
  (c ≥ 'a' && c ≤ 'z') || (c ≥ 'A' && c ≤ 'Z') || (c ≥ '0' && c ≤ '9') || c = Char.ofNat 95

/-- ASCII decimal digit. -/
def isDigitCh (c : Char) : Bool :=
  c ≥ '0' && c ≤ '9'

/-- ASCII lower-casing of one character (`str.lower`, ASCII fragment). -/
def lowerCh (c : Char) : Char :=
  if c ≥ 'A' && c ≤ 'Z' then Char.ofNat (c.toNat + 32) else c

/-- ASCII lower-casing of a string. -/
def pyLower (s : String) : String :=
  String.mk (s.data.map lowerCh)

/-- `str.strip()` : drop leading and trailing whitespace. -/
def pyStripStr (s : String) : String :=
  String.mk ((s.data.dropWhile isPySpace).reverse.dropWhile isPySpace |>.reverse)

/-- `str.startswith(pre)`. -/
def pyStartsWith (s pre : String) : Bool :=
  pre.data.isPrefixOf s.data

/-- `needle in haystack` for strings: substring test. -/
def strContainsSub (haystack needle : String) : Bool :=
  strContainsAux haystack.data needle.data
where
  strContainsAux : List Char → List Char → Bool
    | cs, n =>
      if n.isPrefixOf cs then true
      else
        match cs with
        | [] => false
        | _ :: rest => strContainsAux rest n

/-- `str.replace(old, new)` for a single-character `old` and empty `new`
(the only form the code uses: stripping commas and spaces). -/
def removeAllCh (s : String) (c : Char) : String :=
  String.mk (s.data.filter (fun x => x ≠ c))

/-- `'d'.join(parts)`-style join. -/
def joinWith (sep : String) (parts : List String) : String :=
  String.intercalate sep parts

/-- `str.split(sep)` for a single-character separator (Python keeps empty
fields, e.g. `"https://h".split('/') = ["https:", "", "h"]`). -/
def pySplitCh (s : String) (sep : Char) : List String :=
  (splitChAux s.data).map String.mk
where
  splitChAux : List Char → List (List Char)
    | [] => [[]]
    | c :: rest =>
      let r := splitChAux rest
      if c = sep then [] :: r
      else
        match r with
        | [] => [[c]]
        | g :: gs => (c :: g) :: gs

/-- `str.rstrip(chars)` for an explicit character set. -/
def rstripChars (s : String) (chars : List Char) : String :=
  String.mk ((s.data.reverse.dropWhile (fun c => chars.contains c)).reverse)

/-- `len(s.encode('utf-8'))`: UTF-8 byte length of a string. -/
def pyUtf8Len (s : String) : Nat :=
  (s.data.map Char.utf8Size).sum

/-! ### Python number parsing

`int(s)` and `float(s)` as used by the solver.  Modelled over ASCII
digit strings (the code only ever feeds them regex-extracted ASCII); the
underscore-separator and non-ASCII-digit extensions of CPython are out of
the modelled fragment.  Every `float(...)` call site in the solver is
guarded by `"." in s` or by a regex match that contains a dot, so the
decimal-literal grammar below covers all reachable inputs (`inf`/`nan`
spellings contain no dot and are never reached). -/

/-- Digits to a natural number. -/
def digitsToNat (ds : List Char) : Nat :=
  ds.foldl (fun acc c => acc * 10 + (c.toNat - 48)) 0

/-- `int(s)`: optional surrounding whitespace, optional sign, a nonempty
digit run. -/
def pyIntOfString (s : String) : Option Int :=
  let cs := (s.data.dropWhile isPySpace).reverse.dropWhile isPySpace |>.reverse
  let (sign, rest) :=
    match cs with
    | c :: t => if c = '-' then (true, t) else if c = '+' then (false, t) else (false, cs)
    | [] => (false, cs)
  if rest ≠ [] ∧ rest.all isDigitCh then
    let n : Int := Int.ofNat (digitsToNat rest)
    some (if sign then -n else n)
  else Option.none

/-- `float(s)` for decimal literals: optional surrounding whitespace,
optional sign, `digits[.digits] | .digits | digits.`, optional
`e`/`E` exponent.  Yields the exact rational denoted by the literal. -/
def pyFloatOfString (s : String) : Option ℚ :=
  let cs := (s.data.dropWhile isPySpace).reverse.dropWhile isPySpace |>.reverse
  let (sign, rest) :=
    match cs with
    | c :: t => if c = '-' then (true, t) else if c = '+' then (false, t) else (false, cs)
    | [] => (false, cs)
  let ip := rest.takeWhile isDigitCh
  let rest1 := rest.drop ip.length
  let (fp, rest2) :=
    match rest1 with
    | c :: t => if c = Char.ofNat 46 then (t.takeWhile isDigitCh, (t.dropWhile isDigitCh, true))
                else (([] : List Char), (rest1, false))
    | [] => (([] : List Char), (rest1, false))
  let rest2' := rest2.1
  if ip = [] ∧ fp = [] then Option.none
  else
    let mantissa : ℚ := (digitsToNat ip : ℚ) + (digitsToNat fp : ℚ) / ((10 : ℚ) ^ fp.length)
    let expPart : Option ℚ :=
      match rest2' with
      | [] => some 1
      | e :: t =>
        if e = 'e' ∨ e = 'E' then
          let (esign, et) :=
            match t with
            | c :: tt => if c = '-' then (true, tt) else if c = '+' then (false, tt) else (false, t)
            | [] => (false, t)
          if et ≠ [] ∧ et.all isDigitCh then
            let k := digitsToNat et
            some (if esign then ((10 : ℚ) ^ k)⁻¹ else (10 : ℚ) ^ k)
          else Option.none
        else Option.none
    match expPart with
    | some f => some ((if sign then -mantissa else mantissa) * f)
    | Option.none => Option.none

/-! ### JSON: `json.loads` and `json.dumps`

A recursive-descent parser and serialiser for the JSON fragment the
solver exchanges (objects, arrays, strings with escapes, integers,
decimal/exponent floats, `true`/`false`/`null`).  CPython extensions
(`NaN`, `Infinity`) are outside the modelled fragment.  Duplicate object
keys keep the first position and the last value, as Python dicts do. -/

/-- JSON structural whitespace (space, tab, newline, carriage return). -/
def isJsonWs (c : Char) : Bool :=
  c = ' ' || c = Char.ofNat 9 || c = Char.ofNat 10 || c = Char.ofNat 13

/-- Hex digit value. -/
def hexVal (c : Char) : Option Nat :=
  if c ≥ '0' && c ≤ '9' then some (c.toNat - 48)
  else if c ≥ 'a' && c ≤ 'f' then some (c.toNat - 87)
  else if c ≥ 'A' && c ≤ 'F' then some (c.toNat - 55)
  else Option.none

/-- Parse exactly four hex digits. -/
def parseHex4 : List Char → Option (Nat × List Char)
  | a :: b :: c :: d :: rest =>
    match hexVal a, hexVal b, hexVal c, hexVal d with
    | some x, some y, some z, some w => some (((x * 16 + y) * 16 + z) * 16 + w, rest)
    | _, _, _, _ => Option.none
  | _ => Option.none

/-- Parse the body of a JSON string (after the opening quote), handling
escapes and `\uXXXX` (with surrogate pairs). -/
def jsonParseStrBody : Nat → List Char → Option (List Char × List Char)
  | 0, _ => Option.none
  | _ + 1, [] => Option.none
  | fuel + 1, c :: rest =>
    if c = Char.ofNat 34 then some ([], rest)
    else if c = Char.ofNat 92 then
      match rest with
      | [] => Option.none
      | e :: rest2 =>
        let simpleEsc : Option Char :=
          if e = Char.ofNat 34 then some (Char.ofNat 34)
          else if e = Char.ofNat 92 then some (Char.ofNat 92)
          else if e = Char.ofNat 47 then some (Char.ofNat 47)
          else if e = 'b' then some (Char.ofNat 8)
          else if e = 'f' then some (Char.ofNat 12)
          else if e = 'n' then some (Char.ofNat 10)
          else if e = 'r' then some (Char.ofNat 13)
          else if e = 't' then some (Char.ofNat 9)
          else Option.none
        match simpleEsc with
        | some ch =>
          match jsonParseStrBody fuel rest2 with
          | some (cs, r) => some (ch :: cs, r)
          | Option.none => Option.none
        | Option.none =>
          if e = 'u' then
            match parseHex4 rest2 with
            | some (n, rest3) =>
              if 0xD800 ≤ n ∧ n ≤ 0xDBFF then
                match rest3 with
                | b1 :: u :: rest4 =>
                  if b1 = Char.ofNat 92 ∧ u = 'u' then
                    match parseHex4 rest4 with
                    | some (m, rest5) =>
                      if 0xDC00 ≤ m ∧ m ≤ 0xDFFF then
                        let cp := 0x10000 + (n - 0xD800) * 0x400 + (m - 0xDC00)
                        match jsonParseStrBody fuel rest5 with
                        | some (cs, r) => some (Char.ofNat cp :: cs, r)
                        | Option.none => Option.none
                      else Option.none
                    | Option.none => Option.none
                  else Option.none
                | _ => Option.none
              else if 0xDC00 ≤ n ∧ n ≤ 0xDFFF then Option.none
              else
                match jsonParseStrBody fuel rest3 with
                | some (cs, r) => some (Char.ofNat n :: cs, r)
                | Option.none => Option.none
            | Option.none => Option.none
          else Option.none
    else
      match jsonParseStrBody fuel rest with
      | some (cs, r) => some (c :: cs, r)
      | Option.none => Option.none

/-- Parse a JSON number: integers become `PyVal.int`, anything with a
fraction or exponent becomes `PyVal.float`. -/
def jsonParseNum (cs : List Char) : Option (PyVal × List Char) :=
  let (neg, r0) :=
    match cs with
    | c :: t => if c = '-' then (true, t) else (false, cs)
    | [] => (false, cs)
  let ip := r0.takeWhile isDigitCh
  let r1 := r0.drop ip.length
  let okInt : Bool :=
    match ip with
    | [] => false
    | [_] => true
    | c :: _ :: _ => c ≠ '0'
  if ip = [] ∨ okInt = false then Option.none
  else
    let (fp, r2, hasFrac) :=
      match r1 with
      | c :: t =>
        if c = Char.ofNat 46 then
          let f := t.takeWhile isDigitCh
          (f, t.drop f.length, true)
        else ([], r1, false)
      | [] => ([], r1, false)
    if hasFrac ∧ fp = [] then Option.none
    else
      let (expOk, expQ, r3) :=
        match r2 with
        | e :: t =>
          if e = 'e' ∨ e = 'E' then
            let (esign, et) :=
              match t with
              | c :: tt => if c = '-' then (true, tt) else if c = '+' then (false, tt) else (false, t)
              | [] => (false, t)
            let ds := et.takeWhile isDigitCh
            if ds = [] then (false, (1 : ℚ), r2)
            else
              let k := digitsToNat ds
              ((true : Bool), (if esign then ((10 : ℚ) ^ k)⁻¹ else (10 : ℚ) ^ k),
                et.drop ds.length)
          else (false, 1, r2)
        | [] => (false, 1, r2)
      let hasExp : Bool := expOk
      if hasFrac = false ∧ hasExp = false then
        let n : Int := Int.ofNat (digitsToNat ip)
        some (.int (if neg then -n else n), r1)
      else
        let mant : ℚ := (digitsToNat ip : ℚ) + (digitsToNat fp : ℚ) / ((10 : ℚ) ^ fp.length)
        some (.float ((if neg then -mant else mant) * expQ), r3)

mutual

/-- Parse one JSON value. -/
def jsonParseVal : Nat → List Char → Option (PyVal × List Char)
  | 0, _ => Option.none
  | fuel + 1, cs =>
    let cs := cs.dropWhile isJsonWs
    match cs with
    | [] => Option.none
    | c :: rest =>
      if c = Char.ofNat 34 then
        match jsonParseStrBody (fuel + 1) rest with
        | some (body, r) => some (.str (String.mk body), r)
        | Option.none => Option.none
      else if c = Char.ofNat 123 then
        jsonParseObj fuel rest []
      else if c = Char.ofNat 91 then
        jsonParseArr fuel rest []
      else if c = 't' then
        if rest.take 3 = ['r', 'u', 'e'] then some (.bool true, rest.drop 3) else Option.none
      else if c = 'f' then
        if rest.take 4 = ['a', 'l', 's', 'e'] then some (.bool false, rest.drop 4) else Option.none
      else if c = 'n' then
        if rest.take 3 = ['u', 'l', 'l'] then some (.none, rest.drop 3) else Option.none
      else jsonParseNum (c :: rest)

/-- Parse the members of a JSON object after the opening brace. -/
def jsonParseObj (fuel : Nat) (cs : List Char) (acc : List (String × PyVal)) :
    Option (PyVal × List Char) :=
  match fuel with
  | 0 => Option.none
  | fuel + 1 =>
    let cs1 := cs.dropWhile isJsonWs
    match cs1 with
    | [] => Option.none
    | c :: rest =>
      if c = Char.ofNat 125 ∧ acc = [] then some (.dict [], rest)
      else
        match cs1 with
        | [] => Option.none
        | q :: rest2 =>
          if q = Char.ofNat 34 then
            match jsonParseStrBody (fuel + 1) rest2 with
            | some (key, r1) =>
              let r2 := r1.dropWhile isJsonWs
              match r2 with
              | colon :: r3 =>
                if colon = Char.ofNat 58 then
                  match jsonParseVal fuel r3 with
                  | some (v, r4) =>
                    let acc' := dictInsert acc (String.mk key) v
                    let r5 := r4.dropWhile isJsonWs
                    match r5 with
                    | d :: r6 =>
                      if d = Char.ofNat 44 then
                        jsonParseObjNext fuel r6 acc'
                      else if d = Char.ofNat 125 then some (.dict acc', r6)
                      else Option.none
                    | [] => Option.none
                  | Option.none => Option.none
                else Option.none
              | [] => Option.none
            | Option.none => Option.none
          else Option.none

/-- Continue an object after a comma (a member must follow). -/
def jsonParseObjNext (fuel : Nat) (cs : List Char) (acc : List (String × PyVal)) :
    Option (PyVal × List Char) :=
  match fuel with
  | 0 => Option.none
  | fuel + 1 =>
    let cs1 := cs.dropWhile isJsonWs
    match cs1 with
    | q :: rest2 =>
      if q = Char.ofNat 34 then
        match jsonParseStrBody (fuel + 1) rest2 with
        | some (key, r1) =>
          let r2 := r1.dropWhile isJsonWs
          match r2 with
          | colon :: r3 =>
            if colon = Char.ofNat 58 then
              match jsonParseVal fuel r3 with
              | some (v, r4) =>
                let acc' := dictInsert acc (String.mk key) v
                let r5 := r4.dropWhile isJsonWs
                match r5 with
                | d :: r6 =>
                  if d = Char.ofNat 44 then jsonParseObjNext fuel r6 acc'
                  else if d = Char.ofNat 125 then some (.dict acc', r6)
                  else Option.none
                | [] => Option.none
              | Option.none => Option.none
            else Option.none
          | [] => Option.none
        | Option.none => Option.none
      else Option.none
    | [] => Option.none

/-- Parse the elements of a JSON array after the opening bracket. -/
def jsonParseArr (fuel : Nat) (cs : List Char) (acc : List PyVal) :
    Option (PyVal × List Char) :=
  match fuel with
  | 0 => Option.none
  | fuel + 1 =>
    let cs1 := cs.dropWhile isJsonWs
    match cs1 with
    | [] => Option.none
    | c :: rest =>
      if c = Char.ofNat 93 ∧ acc = [] then some (.list [], rest)
      else
        match jsonParseVal fuel cs1 with
        | some (v, r1) =>
          let r2 := r1.dropWhile isJsonWs
          match r2 with
          | d :: r3 =>
            if d = Char.ofNat 44 then jsonParseArr fuel r3 (acc ++ [v])
            else if d = Char.ofNat 93 then some (.list (acc ++ [v]), r3)
            else Option.none
          | [] => Option.none
        | Option.none => Option.none

end

/-- `json.loads(s)`: parse one value, allow surrounding whitespace,
reject trailing content. -/
def jsonLoads (s : String) : Option PyVal :=
  match jsonParseVal (s.data.length + 1) s.data with
  | some (v, rest) => if rest.dropWhile isJsonWs = [] then some v else Option.none
  | Option.none => Option.none

/-- Multiplicity of a prime-like factor `p ≥ 2` in `n` (fuel-bounded by `n`). -/
def countFact (p : Nat) : Nat → Nat
  | n => countFactAux p n n
where
  countFactAux (p : Nat) : Nat → Nat → Nat
    | 0, _ => 0
    | _ + 1, 0 => 0
    | fuel + 1, n => if p ≥ 2 ∧ n % p = 0 ∧ 0 < n then countFactAux p fuel (n / p) + 1 else 0

/-- Decimal digits of a natural number (most significant first). -/
def natDigits (n : Nat) : List Char :=
  if n = 0 then ['0'] else (natDigitsAux n n).reverse
where
  natDigitsAux : Nat → Nat → List Char
    | 0, _ => []
    | _ + 1, 0 => []
    | fuel + 1, n => Char.ofNat (48 + n % 10) :: natDigitsAux fuel (n / 10)

/-- `repr(f)` for a Python float holding the exact rational `q`, restricted
to rationals with a decimal denominator (the only floats the solver ever
builds: results of parsing decimal literals).  Renders the shortest plain
decimal; the exponent notation CPython uses for very large/small
magnitudes is outside the modelled fragment. -/
def floatRepr (q : ℚ) : String :=
  let sign := if q < 0 then "-" else ""
  let n := q.num.natAbs
  let d := q.den
  let a := countFact 2 d
  let b := countFact 5 d
  if 2 ^ a * 5 ^ b = d then
    let k := max a b
    let m := n * 10 ^ k / d
    if k = 0 then sign ++ String.mk (natDigits m) ++ ".0"
    else
      let ip := m / 10 ^ k
      let fr := m % 10 ^ k
      let frDigits := natDigits fr
      let padded := List.replicate (k - frDigits.length) '0' ++ frDigits
      sign ++ String.mk (natDigits ip) ++ "." ++ String.mk padded
  else sign ++ String.mk (natDigits n) ++ "/" ++ String.mk (natDigits d)

/-- Four-hex-digit rendering (lower case), for `\uXXXX` escapes. -/
def hex4 (n : Nat) : List Char :=
  let h := fun (k : Nat) => Char.ofNat (if k < 10 then 48 + k else 87 + k)
  [h (n / 4096 % 16), h (n / 256 % 16), h (n / 16 % 16), h (n % 16)]

/-- JSON escaping of one character, `ensure_ascii=True` (CPython default):
ASCII printables except quote and backslash stay literal, everything else
becomes an escape. -/
def jsonEscapeChar (c : Char) : List Char :=
  if c = Char.ofNat 34 then [Char.ofNat 92, Char.ofNat 34]
  else if c = Char.ofNat 92 then [Char.ofNat 92, Char.ofNat 92]
  else if c = Char.ofNat 10 then [Char.ofNat 92, 'n']
  else if c = Char.ofNat 13 then [Char.ofNat 92, 'r']
  else if c = Char.ofNat 9 then [Char.ofNat 92, 't']
  else if c = Char.ofNat 8 then [Char.ofNat 92, 'b']
  else if c = Char.ofNat 12 then [Char.ofNat 92, 'f']
  else if c.toNat < 32 ∨ c.toNat > 126 then
    if c.toNat < 0x10000 then Char.ofNat 92 :: 'u' :: hex4 c.toNat
    else
      let v := c.toNat - 0x10000
      (Char.ofNat 92 :: 'u' :: hex4 (0xD800 + v / 0x400)) ++
        (Char.ofNat 92 :: 'u' :: hex4 (0xDC00 + v % 0x400))
  else [c]

/-- JSON string serialisation (quotes plus escaped body). -/
def jsonEscape (s : String) : String :=
  String.mk (Char.ofNat 34 :: s.data.flatMap jsonEscapeChar ++ [Char.ofNat 34])

mutual

/-- `json.dumps(v)` with CPython defaults (`ensure_ascii=True`,
separators `", "` and `": "`). -/
def jsonDumps : PyVal → String
  | .none => "null"
  | .bool b => if b then "true" else "false"
  | .int n => toString n
  | .float q => floatRepr q
  | .str s => jsonEscape s
  | .list xs => "[" ++ jsonDumpsList xs ++ "]"
  | .dict kvs => String.mk [Char.ofNat 123] ++ jsonDumpsKVs kvs ++ String.mk [Char.ofNat 125]

/-- Comma-joined dump of list elements. -/
def jsonDumpsList : List PyVal → String
  | [] => ""
  | [x] => jsonDumps x
  | x :: y :: rest => jsonDumps x ++ ", " ++ jsonDumpsList (y :: rest)

/-- Comma-joined dump of object members. -/
def jsonDumpsKVs : List (String × PyVal) → String
  | [] => ""
  | [(k, v)] => jsonEscape k ++ ": " ++ jsonDumps v
  | (k, v) :: y :: rest => jsonEscape k ++ ": " ++ jsonDumps v ++ ", " ++ jsonDumpsKVs (y :: rest)

end

/-- `str(v)`: the f-string rendering of a value (only ever used to build
prompt and report message text). -/
def pyStr : PyVal → String
  | .none => "None"
  | .bool b => if b then "True" else "False"
  | .int n => toString n
  | .float q => floatRepr q
  | .str s => s
  | v => jsonDumps v

/-! ### Base64 and UTF-8 decoding (`decode_base64_in_html`)

`base64.b64decode` is modelled by the CPython `binascii.a2b_base64`
state machine (non-strict mode): characters are folded into a quad
accumulator; a pad `=` seen with two or three data characters in the
current quad ends decoding successfully; a leftover partial quad at end
of input is an error. -/

/-- Value of a standard-alphabet base64 character. -/
def b64val (c : Char) : Option Nat :=
  if c ≥ 'A' && c ≤ 'Z' then some (c.toNat - 65)
  else if c ≥ 'a' && c ≤ 'z' then some (c.toNat - 71)
  else if c ≥ '0' && c ≤ '9' then some (c.toNat + 4)
  else if c = '+' then some 62
  else if c = Char.ofNat 47 then some 63
  else Option.none

/-- The `a2b_base64` loop: `quadPos` data characters are pending in
`leftBits`; `pads` counts the pad run in progress. -/
def b64decodeLoop : List Char → Nat → Nat → Nat → Option (List Nat)
  | [], qp, _, _ => if qp = 0 then some [] else Option.none
  | c :: rest, qp, leftBits, pads =>
    if c = '=' then
      if qp ≥ 2 ∧ qp + (pads + 1) ≥ 4 then some []
      else b64decodeLoop rest qp leftBits (pads + 1)
    else
      match b64val c with
      | Option.none => b64decodeLoop rest qp leftBits pads
      | some v =>
        let nb := leftBits * 64 + v
        match qp with
        | 0 => b64decodeLoop rest 1 nb 0
        | 1 =>
          match b64decodeLoop rest 2 (nb % 16) 0 with
          | some bs => some (nb / 16 :: bs)
          | Option.none => Option.none
        | 2 =>
          match b64decodeLoop rest 3 (nb % 4) 0 with
          | some bs => some (nb / 4 :: bs)
          | Option.none => Option.none
        | _ =>
          match b64decodeLoop rest 0 0 0 with
          | some bs => some (nb :: bs)
          | Option.none => Option.none

/-- `base64.b64decode(s)`: bytes on success, `None` on `binascii.Error`. -/
def b64decodeOpt (s : String) : Option (List Nat) :=
  b64decodeLoop s.data 0 0 0

/-- Is `b` a UTF-8 continuation byte? -/
def isCont (b : Nat) : Bool :=
  0x80 ≤ b ∧ b ≤ 0xBF

/-- Strict UTF-8 decoding (`bytes.decode('utf-8')`): rejects overlong
forms, surrogates and out-of-range code points. -/
def utf8Decode : Nat → List Nat → Option (List Char)
  | 0, _ => Option.none
  | _ + 1, [] => some []
  | fuel + 1, b :: rest =>
    if b < 0x80 then
      match utf8Decode fuel rest with
      | some cs => some (Char.ofNat b :: cs)
      | Option.none => Option.none
    else if 0xC2 ≤ b ∧ b ≤ 0xDF then
      match rest with
      | b2 :: rest2 =>
        if isCont b2 then
          match utf8Decode fuel rest2 with
          | some cs => some (Char.ofNat ((b - 0xC0) * 64 + (b2 - 0x80)) :: cs)
          | Option.none => Option.none
        else Option.none
      | [] => Option.none
    else if 0xE0 ≤ b ∧ b ≤ 0xEF then
      match rest with
      | b2 :: b3 :: rest2 =>
        let lo2 : Nat := if b = 0xE0 then 0xA0 else 0x80
        let hi2 : Nat := if b = 0xED then 0x9F else 0xBF
        if lo2 ≤ b2 ∧ b2 ≤ hi2 ∧ isCont b3 then
          match utf8Decode fuel rest2 with
          | some cs =>
            some (Char.ofNat (((b - 0xE0) * 64 + (b2 - 0x80)) * 64 + (b3 - 0x80)) :: cs)
          | Option.none => Option.none
        else Option.none
      | _ => Option.none
    else if 0xF0 ≤ b ∧ b ≤ 0xF4 then
      match rest with
      | b2 :: b3 :: b4 :: rest2 =>
        let lo2 : Nat := if b = 0xF0 then 0x90 else 0x80
        let hi2 : Nat := if b = 0xF4 then 0x8F else 0xBF
        if lo2 ≤ b2 ∧ b2 ≤ hi2 ∧ isCont b3 ∧ isCont b4 then
          match utf8Decode fuel rest2 with
          | some cs =>
            some (Char.ofNat ((((b - 0xF0) * 64 + (b2 - 0x80)) * 64 + (b3 - 0x80)) * 64
              + (b4 - 0x80)) :: cs)
          | Option.none => Option.none
        else Option.none
      | _ => Option.none
    else Option.none

/-- The body of one iteration of the `decode_base64_in_html` loop:
`base64.b64decode(m).decode('utf-8')`, with failure (`except: continue`)
as `None`. -/
def decodeAtobPayload (m : String) : Option String :=
  match b64decodeOpt m with
  | some bytes =>
    match utf8Decode (bytes.length + 1) bytes with
    | some cs => some (String.mk cs)
    | Option.none => Option.none
  | Option.none => Option.none

/-- Quote characters accepted by the `atob` regex: `'`, `"` and backquote. -/
def isQuoteCh (c : Char) : Bool :=
  c = Char.ofNat 39 || c = Char.ofNat 34 || c = Char.ofNat 96

/-- Base64-alphabet class `[A-Za-z0-9+/=]` of the `atob` regex. -/
def isB64Cls (c : Char) : Bool :=
  (c ≥ 'A' && c ≤ 'Z') || (c ≥ 'a' && c ≤ 'z') || (c ≥ '0' && c ≤ '9') ||
    c = '+' || c = Char.ofNat 47 || c = '='

/-- Try to match `atob\([квote]payload[quote]\)` at the head of `cs`;
returns the captured payload and the remainder after the match. -/
def atobMatchAt (cs : List Char) : Option (List Char × List Char) :=
  match cs with
  | 'a' :: 't' :: 'o' :: 'b' :: p :: q :: rest =>
    if p = '(' ∧ isQuoteCh q then
      let run := rest.takeWhile isB64Cls
      if run.isEmpty then Option.none
      else
        match rest.drop run.length with
        | q2 :: r2 =>
          let closeOk : Bool :=
            match r2 with
            | c :: _ => c == ')'
            | [] => false
          if isQuoteCh q2 && closeOk then some (run, r2.drop 1)
          else Option.none
        | [] => Option.none
    else Option.none
  | _ => Option.none

/-- `re.findall` for the `atob` pattern: non-overlapping leftmost
matches, the scan resuming after each match end. -/
def atobFindAll : Nat → List Char → List String
  | 0, _ => []
  | _ + 1, [] => []
  | fuel + 1, c :: rest =>
    match atobMatchAt (c :: rest) with
    | some (payload, after) => String.mk payload :: atobFindAll fuel after
    | Option.none => atobFindAll fuel rest

/-- `decode_base64_in_html(html)`: collect `atob('...')` payloads, decode
each, silently skip failures (`except: continue`), and join the decoded
parts with newlines.  The accumulator loop mirrors the Python `for`. -/
def decode_base64_in_html (html : String) : String :=
  let ms := atobFindAll (html.data.length + 1) html.data
  let decoded_parts :=
    ms.foldl
      (fun acc m =>
        match decodeAtobPayload m with
        | some s => acc ++ [s]
        | Option.none => acc)
      []
  joinWith "\n" decoded_parts

/-! ### A small backtracking regex engine

The solver's remaining regexes are sequences of case-insensitive
literals, quantified character classes, one optional group and one
capture group.  They are compiled by hand into the token lists below;
matching enumerates candidate continuations in the same
greedy-backtracking priority order as CPython `re`. -/

/-- Quantifier of a character class. -/
inductive Quant where
  | one
  | optQ
  | star
  | plus

/-- A pattern element with no nested grouping. -/
inductive SimpleTok where
  | lit (s : List Char) (ci : Bool)
  | cls (p : Char → Bool) (q : Quant)

/-- A top-level pattern element: plain element, greedy optional group
`(?:...)?`, or the (unique) capture group `(...)`. -/
inductive Tok where
  | simple (t : SimpleTok)
  | optSeq (ts : List SimpleTok)
  | capSeq (ts : List SimpleTok)

/-- Match a literal at the head (optionally case-insensitive). -/
def litMatch (ci : Bool) : List Char → List Char → Option (List Char)
  | [], cs => some cs
  | _ :: _, [] => Option.none
  | l :: ls, c :: cs =>
    if (if ci then lowerCh l = lowerCh c else l = c) then litMatch ci ls cs
    else Option.none

/-- All ways (rests, greedy first) a quantified class can consume from `cs`. -/
def clsRests (p : Char → Bool) (q : Quant) (cs : List Char) : List (List Char) :=
  match q with
  | .one =>
    match cs with
    | c :: rest => if p c then [rest] else []
    | [] => []
  | .optQ =>
    match cs with
    | c :: rest => if p c then [rest, cs] else [cs]
    | [] => [cs]
  | .star => starRests p cs
  | .plus =>
    match cs with
    | c :: rest => if p c then (starRests p rest).map id else []
    | [] => []
where
  /-- Suffixes after consuming `k, k-1, …, 0` class characters (longest
  consumption first). -/
  starRests (p : Char → Bool) (cs : List Char) : List (List Char) :=
    match cs with
    | [] => [[]]
    | c :: rest => if p c then starRests p rest ++ [c :: rest] else [c :: rest]

/-- All rests after matching a grouping-free token sequence, in
backtracking priority order. -/
def matchSimples : List SimpleTok → List Char → List (List Char)
  | [], cs => [cs]
  | .lit l ci :: ts, cs =>
    match litMatch ci l cs with
    | some r => matchSimples ts r
    | Option.none => []
  | .cls p q :: ts, cs => (clsRests p q cs).flatMap (fun r => matchSimples ts r)

/-- All `(rest-after-match, capture)` pairs for a full token sequence, in
backtracking priority order. -/
def matchToks : List Tok → List Char → List (List Char × Option (List Char))
  | [], cs => [(cs, Option.none)]
  | .simple (.lit l ci) :: ts, cs =>
    match litMatch ci l cs with
    | some r => matchToks ts r
    | Option.none => []
  | .simple (.cls p q) :: ts, cs =>
    (clsRests p q cs).flatMap (fun r => matchToks ts r)
  | .optSeq ss :: ts, cs =>
    (matchSimples ss cs).flatMap (fun r => matchToks ts r) ++ matchToks ts cs
  | .capSeq ss :: ts, cs =>
    (matchSimples ss cs).flatMap (fun r =>
      (matchToks ts r).map (fun out =>
        (out.1, some (cs.take (cs.length - r.length)))))

/-- First match of the pattern at this exact position, if any. -/
def matchHere (pat : List Tok) (cs : List Char) :
    Option (List Char × Option (List Char)) :=
  (matchToks pat cs).head?

/-- `re.search`: leftmost match; returns `(capture, rest-after-match)`.
The capture is the whole match if the pattern has no capture group. -/
def reSearch (pat : List Tok) (cs : List Char) :
    Option (List Char × List Char) :=
  match cs with
  | [] =>
    match matchHere pat [] with
    | some (r, cap) => some (cap.getD [], r)
    | Option.none => Option.none
  | c :: rest =>
    match matchHere pat (c :: rest) with
    | some (r, cap) =>
      some (cap.getD ((c :: rest).take ((c :: rest).length - r.length)), r)
    | Option.none => reSearch pat rest

/-- `re.fullmatch`: some candidate must consume the entire input. -/
def reFullmatch (pat : List Tok) (cs : List Char) : Bool :=
  (matchToks pat cs).any (fun out => out.1.isEmpty)

/-- `re.findall`: non-overlapping leftmost matches, scanning resumes
after each match end (all our patterns match at least one character). -/
def reFindAll : Nat → List Tok → List Char → List (List Char)
  | 0, _, _ => []
  | fuel + 1, pat, cs =>
    match reSearch pat cs with
    | some (cap, rest) =>
      if rest.length < cs.length then cap :: reFindAll fuel pat rest
      else [cap]
    | Option.none => []

/-! ### The concrete patterns of the solver -/

/-- Class `[^\s"'<>]` (the URL-continuation class). -/
def isUrlCls (c : Char) : Bool :=
  !(isPySpace c) && c ≠ Char.ofNat 34 && c ≠ Char.ofNat 39 && c ≠ '<' && c ≠ '>'

/-- Capture group `(https?://[^\s<>"\']+)`. -/
def urlCapToks (ci : Bool) : List SimpleTok :=
  [.lit "http".data ci, .cls (fun c => if ci then lowerCh c = 's' else c = 's') .optQ,
    .lit "://".data ci, .cls isUrlCls .plus]

/-- `\s+`. -/
def wsPlus : Tok := .simple (.cls isPySpace .plus)

/-- The seven submit-URL patterns of `find_submit_url_from_content`
(strategy 1), compiled in source order; all searches use `IGNORECASE`. -/
def submitPatterns : List (List Tok) :=
  [ [.simple (.lit "post".data true), wsPlus,
      .optSeq [.lit "your".data true, .cls isPySpace .plus, .lit "answer".data true,
        .cls isPySpace .plus],
      .simple (.lit "to".data true), wsPlus, .capSeq (urlCapToks true)]
  , [.simple (.lit "submit".data true), wsPlus,
      .optSeq [.lit "your".data true, .cls isPySpace .plus, .lit "answer".data true,
        .cls isPySpace .plus],
      .simple (.lit "to".data true), wsPlus, .capSeq (urlCapToks true)]
  , [.simple (.lit "send".data true), wsPlus,
      .optSeq [.lit "your".data true, .cls isPySpace .plus, .lit "answer".data true,
        .cls isPySpace .plus],
      .simple (.lit "to".data true), wsPlus, .capSeq (urlCapToks true)]
  , [.simple (.lit "POST".data true), wsPlus, .simple (.lit "to".data true), wsPlus,
      .capSeq (urlCapToks true)]
  , [.simple (.lit "endpoint".data true),
      .simple (.cls (fun c => c = ':' || isPySpace c) .plus),
      .capSeq [.lit "http".data true, .cls (fun c => lowerCh c = 's') .optQ,
        .lit "://".data true, .cls isUrlCls .plus, .lit "/submit".data true,
        .cls isUrlCls .star]]
  , [.simple (.lit "submit".data true), .simple (.cls (fun c => !(isWordChar c)) .plus),
      .capSeq (urlCapToks true)]
  , [.simple (.lit "answer".data true), wsPlus, .simple (.lit "to".data true), wsPlus,
      .capSeq (urlCapToks true)]
  ]

/-- The case-sensitive pattern `https?://[^\s"'<>]+` used by
`re.findall` for URL harvesting (whole match captured). -/
def plainUrlPat : List Tok :=
  [.capSeq (urlCapToks false)]

/-- `re.findall(r"https?://[^\s\"'<>]+", text)`. -/
def findAllUrls (text : String) : List String :=
  (reFindAll (text.data.length + 1) plainUrlPat text.data).map String.mk

/-- `.rstrip('.,;:!?')` applied to extracted URLs. -/
def rstripPunct (s : String) : String :=
  rstripChars s [Char.ofNat 46, ',', ';', ':', '!', '?']

/-- The pattern `-?\d+(?:\.\d+)?` (first numeric literal); no capture
group, so a search yields the whole match. -/
def numberPat : List Tok :=
  [.simple (.cls (fun c => c = '-') .optQ), .simple (.cls isDigitCh .plus),
    .optSeq [.lit [Char.ofNat 46] false, .cls isDigitCh .plus]]

/-- `re.search(r"-?\d+(?:\.\d+)?", text)`: the matched text, if any. -/
def findFirstNumberStr (text : String) : Option String :=
  match reSearch numberPat text.data with
  | some (cap, _) => some (String.mk cap)
  | Option.none => Option.none

/-! ### BeautifulSoup views

`BeautifulSoup` is an external HTML-parsing library; the solver only
reads a handful of projections of the parsed document.  Those
projections are modelled as an oracle `String → SoupView` (a function of
the HTML text) supplied with the other collaborators. -/

/-- The projections of `BeautifulSoup(html)` the solver reads. -/
structure SoupView where
  /-- `form.get('action')` for each `<form>`, in document order. -/
  formActions : List (Option String)
  /-- `tag['data-submit']` for tags carrying that attribute. -/
  dataSubmit : List String
  /-- `tag['data-submit-url']` for tags carrying that attribute. -/
  dataSubmitUrl : List String
  /-- `get_text()` of each `<code>`/`<pre>` block, in document order. -/
  codeTexts : List String
  /-- `a['href']` for each anchor with an `href`, in document order. -/
  hrefs : List String
  /-- `tag.get('src')` for each tag with a `src` attribute. -/
  srcs : List String
  /-- `get_text()` of each `h1/h2/h3/strong/b` tag, in document order. -/
  headings : List String

/-- Strategy-1 / strategy-4 pattern loop: first of the seven submit
patterns that matches anywhere, its capture right-stripped of
punctuation. -/
def searchSubmitPats (text : String) : Option String :=
  submitPatterns.foldl
    (fun acc p =>
      match acc with
      | some r => some r
      | Option.none =>
        match reSearch p text.data with
        | some (cap, _) => some (rstripPunct (String.mk cap))
        | Option.none => Option.none)
    Option.none

/-- First URL in `urls` whose lower-casing contains `"submit"`,
right-stripped of punctuation. -/
def firstSubmitUrl (urls : List String) : Option String :=
  match urls.filter (fun u => strContainsSub (pyLower u) "submit") with
  | u :: _ => some (rstripPunct u)
  | [] => Option.none

/-- The four submit-URL extraction strategies of
`find_submit_url_from_content`, applied to an already-assembled search
text. -/
def findSubmitStrategies (text html : String) (sv : SoupView) : Option String :=
  match searchSubmitPats text with
  | some u => some u
  | Option.none =>
    let strat2 : Option String :=
      if html ≠ "" then
        let fromForms :=
          (sv.formActions.filterMap (fun a =>
            match a with
            | some action =>
              if action ≠ "" ∧ strContainsSub (pyLower action) "submit" ∧
                  pyStartsWith action "http" then some action
              else Option.none
            | Option.none => Option.none)).head?
        match fromForms with
        | some u => some u
        | Option.none =>
          match sv.dataSubmit.head? with
          | some u => some u
          | Option.none => sv.dataSubmitUrl.head?
      else Option.none
    match strat2 with
    | some u => some u
    | Option.none =>
      match firstSubmitUrl (findAllUrls text) with
      | some u => some u
      | Option.none =>
        if html ≠ "" then
          (sv.codeTexts.filterMap (fun code =>
            match searchSubmitPats code with
            | some u => some u
            | Option.none => firstSubmitUrl (findAllUrls code))).head?
        else Option.none

/-- `find_submit_url_from_content(text, html)`: the base64-decoded
hidden content is appended to the searched text first (whenever `html`
is nonempty and something decoded), then the four strategies run. -/
def find_submit_url_from_content (text html : String) (sv : SoupView) : Option String :=
  if html ≠ "" ∧ decode_base64_in_html html ≠ "" then
    findSubmitStrategies (text ++ "\n" ++ decode_base64_in_html html) html sv
  else findSubmitStrategies text html sv

/-- `str.lower().endswith(ext)` test against the download-extension
allow-list. -/
def hasDownloadExt (href : String) : Bool :=
  [".csv", ".xlsx", ".xls", ".json", ".pdf", ".txt", ".parquet"].any
    (fun ext => ext.data.isSuffixOf (pyLower href).data)

/-- `find_download_links_from_html(html)` (via the soup view of the same
HTML): anchors whose `href` ends in a known data-file extension. -/
def find_download_links_from_html (sv : SoupView) : List String :=
  sv.hrefs.filter hasDownloadExt

/-- `'/'.join(url.split('/')[:3])`: scheme plus authority of a URL. -/
def urlBase (url : String) : String :=
  joinWith "/" ((pySplitCh url (Char.ofNat 47)).take 3)

/-- `'/'.join(url.split('/')[:-1])`: the URL with its last path segment
dropped. -/
def urlDir (url : String) : String :=
  joinWith "/" ((pySplitCh url (Char.ofNat 47)).dropLast)

/-- `urllib.parse.urljoin`, restricted to the absolute-path and
relative-path cases the solver feeds it (the full RFC 3986 resolution of
the library is out of scope; no claim depends on the remainder). -/
def urljoinModel (base link : String) : String :=
  if pyStartsWith link "/" then urlBase base ++ link
  else urlDir base ++ "/" ++ link

/-- `normalize_url(base_url, link)` from `utils.py`. -/
def normalize_url (base_url link : String) : String :=
  if pyStartsWith link "http://" ∨ pyStartsWith link "https://" then link
  else urljoinModel base_url link

/-- `href.encode('utf-8').decode('unicode_escape')` on the ASCII
fragment: `\uXXXX` and the common single-character escapes are decoded,
an unknown escape keeps its backslash, a malformed escape fails (the
caller catches and keeps the original). -/
def pyUnicodeEscape (s : String) : Option String :=
  (ueAux s.data.length s.data).map String.mk
where
  ueAux : Nat → List Char → Option (List Char)
    | _, [] => some []
    | 0, _ :: _ => Option.none
    | fuel + 1, c :: rest =>
      if c = Char.ofNat 92 then
        match rest with
        | [] => Option.none
        | e :: rest2 =>
          if e = 'u' then
            match parseHex4 rest2 with
            | some (n, rest3) =>
              match ueAux fuel rest3 with
              | some cs => some (Char.ofNat n :: cs)
              | Option.none => Option.none
            | Option.none => Option.none
          else
            let dec : Option Char :=
              if e = 'n' then some (Char.ofNat 10)
              else if e = 't' then some (Char.ofNat 9)
              else if e = 'r' then some (Char.ofNat 13)
              else if e = Char.ofNat 92 then some (Char.ofNat 92)
              else if e = Char.ofNat 39 then some (Char.ofNat 39)
              else if e = Char.ofNat 34 then some (Char.ofNat 34)
              else Option.none
            match dec with
            | some ch =>
              match ueAux fuel rest2 with
              | some cs => some (ch :: cs)
              | Option.none => Option.none
            | Option.none =>
              match ueAux fuel rest2 with
              | some cs => some (Char.ofNat 92 :: e :: cs)
              | Option.none => Option.none
      else
        match ueAux fuel rest with
        | some cs => some (c :: cs)
        | Option.none => Option.none

/-! ### `ask_llm_for_answer` (`llm_interface.py`)

The HTTP POST to the chat-completions endpoint is an external
collaborator, modelled as an oracle `net : Nat → LlmAttempt` giving the
transport outcome of each retry attempt.  `rate_limit_wait` and the
backoff sleeps only pause; they do not affect data flow and are modelled
as no-ops.  Exception texts produced by library internals (the
`JSONDecodeError` string) are abstracted as a fixed token. -/

/-- Transport outcome of one chat-completions request. -/
inductive LlmAttempt where
  | status (code : Nat) (retryAfter : Option String) (body : String)
  | timeoutErr (msg : String)
  | connErr (msg : String)
  | exc (msg : String)

/-- Abstracted `str(json.JSONDecodeError)` text. -/
def jsonDecodeErrMsg : String := "JSONDecodeError"

/-- Outcome of the retry loop: an error dict returned directly, or the
parsed 200-response JSON. -/
inductive LlmLoopOut where
  | errDict (d : PyVal)
  | success (result : PyVal)

/-- An `{"answer": None, "error": msg}` dict. -/
def llmErr (msg : String) : PyVal :=
  .dict [("answer", .none), ("error", .str msg)]

/-- The retry loop of `ask_llm_for_answer` (attempts `0 … maxR-1`);
`remaining` counts attempts still allowed including the current one. -/
def askLlmLoop (net : Nat → LlmAttempt) (maxR : Nat) :
    Nat → Nat → LlmLoopOut
  | 0, _ => .errDict (llmErr "retry loop exhausted")
  | remaining + 1, attempt =>
    match net attempt with
    | .status 429 _ _ =>
      if attempt + 1 < maxR then askLlmLoop net maxR remaining (attempt + 1)
      else .errDict (llmErr ("Rate limit exceeded after " ++ toString maxR ++ " attempts"))
    | .status code _ body =>
      if code ≠ 200 then
        if attempt + 1 < maxR then askLlmLoop net maxR remaining (attempt + 1)
        else .errDict (llmErr ("HTTP " ++ toString code ++ ": " ++ String.take body 300))
      else
        match jsonLoads body with
        | some r => .success r
        | Option.none => .errDict (llmErr ("Invalid JSON response: " ++ jsonDecodeErrMsg))
    | .timeoutErr msg =>
      if attempt + 1 < maxR then askLlmLoop net maxR remaining (attempt + 1)
      else .errDict (llmErr ("Request timeout: " ++ msg))
    | .connErr msg =>
      if attempt + 1 < maxR then askLlmLoop net maxR remaining (attempt + 1)
      else .errDict (llmErr ("Connection failed: " ++ msg))
    | .exc msg =>
      let lower := pyLower msg
      let isRateLimit := strContainsSub lower "429" || strContainsSub lower "rate limit" ||
        strContainsSub lower "too many"
      if isRateLimit ∧ attempt + 1 < maxR then askLlmLoop net maxR remaining (attempt + 1)
      else .errDict (llmErr ("LLM request failed: " ++ msg))

/-- `re.sub(r'^```(?:json)?\s*|\s*```$', '', raw, flags=MULTILINE)`:
left-to-right non-overlapping removal of markdown code fences, `^`/`$`
judged against the original string. -/
def cleanFences (s : String) : String :=
  String.mk (cfAux (s.data.length + 1) true s.data)
where
  cfAux : Nat → Bool → List Char → List Char
    | 0, _, cs => cs
    | _ + 1, _, [] => []
    | fuel + 1, atLS, c :: rest =>
      let cs := c :: rest
      let tick := Char.ofNat 96
      let branch1 : Option (Bool × List Char) :=
        if atLS ∧ [tick, tick, tick].isPrefixOf cs then
          let rest3 := cs.drop 3
          let rest4 := if "json".data.isPrefixOf rest3 then rest3.drop 4 else rest3
          let ws := rest4.takeWhile isPySpace
          let after := rest4.drop ws.length
          some (ws ≠ [] ∧ ws.getLast? = some (Char.ofNat 10), after)
        else Option.none
      match branch1 with
      | some (atLS2, after) => cfAux fuel atLS2 after
      | Option.none =>
        let ws := cs.takeWhile isPySpace
        let afterWs := cs.drop ws.length
        let branch2 : Option (List Char) :=
          if [tick, tick, tick].isPrefixOf afterWs then
            let after2 := afterWs.drop 3
            match after2 with
            | [] => some after2
            | d :: _ => if d = Char.ofNat 10 then some after2 else Option.none
          else Option.none
        match branch2 with
        | some after2 => cfAux fuel false after2
        | Option.none => c :: cfAux fuel (c = Char.ofNat 10) rest

/-- The first placeholder vocabulary (rejadas via equality or
`startswith` on the lower-cased answer). -/
def placeholderTerms1 : List String :=
  ["placeholder", "anything you want", "your", "example", "student", "correct answer",
    "the answer", "secret code you scraped", "the secret code", "your answer here"]

/-- The second placeholder vocabulary (equality only, for the plain-string
fallback). -/
def placeholderTerms2 : List String :=
  ["placeholder", "anything you want", "your answer", "example", "student", "the answer"]

/-- The placeholder test applied to a string answer extracted from a
parsed `{"answer": …}` object: lower-cased equality with, or
`startswith`, one of the configured terms. -/
def isPlaceholderAnswer (s : String) : Bool :=
  placeholderTerms1.any (fun t => pyLower s = t || pyStartsWith (pyLower s) t)

/-- The placeholder test applied to a raw non-JSON reply string:
lower-cased equality only. -/
def isPlaceholderText (s : String) : Bool :=
  placeholderTerms2.any (fun t => pyLower s = t)

/-- Parsing of the (fence-cleaned, stripped) LLM reply text into the
`{"answer": …}` result dict — lines 254-315 of `llm_interface.py`. -/
def llmParseContent (raw : String) : PyVal :=
  match jsonLoads raw with
  | some parsed =>
    if pyHasKey parsed "answer" then
      let answer := pyGet parsed "answer"
      match answer with
      | .str s =>
        if isPlaceholderAnswer s then
          .dict [("answer", .none), ("error", .str ("LLM returned placeholder answer: " ++ s))]
        else .dict [("answer", answer)]
      | _ => .dict [("answer", answer)]
    else .dict [("answer", parsed)]
  | Option.none =>
    if reFullmatch numberPat raw.data then
      if strContainsSub raw "." then
        match pyFloatOfString raw with
        | some q => .dict [("answer", .float q)]
        | Option.none => .dict [("answer", .none)]
      else
        match pyIntOfString raw with
        | some n => .dict [("answer", .int n)]
        | Option.none => .dict [("answer", .none)]
    else if pyLower raw = "true" ∨ pyLower raw = "false" then
      .dict [("answer", .bool (pyLower raw = "true"))]
    else if raw.length < 1000 then
      if isPlaceholderText raw then
        .dict [("answer", .none), ("error", .str ("LLM returned placeholder text: " ++ raw))]
      else .dict [("answer", .str raw)]
    else
      .dict [("answer", .none), ("error", .str "Could not parse LLM output"),
        ("raw", .str (String.take raw 300))]

/-- Extract `result["choices"][0]["message"]["content"]`: a structural
failure is the caught `(KeyError, IndexError, TypeError)` case (`none`);
a non-string content raises `AttributeError` at `.strip()` (uncaught in
the source). -/
def llmExtractContent (result : PyVal) : Except PyExn (Option String) :=
  match result with
  | .dict kvs =>
    match kvs.lookup "choices" with
    | some (.list (c0 :: _)) =>
      match c0 with
      | .dict c0kvs =>
        match c0kvs.lookup "message" with
        | some (.dict mkvs) =>
          match mkvs.lookup "content" with
          | some (.str s) => .ok (some s)
          | some _ => .error (.attributeError "no attribute strip")
          | Option.none => .ok Option.none
        | some _ => .ok Option.none
        | Option.none => .ok Option.none
      | _ => .ok Option.none
    | some _ => .ok Option.none
    | Option.none => .ok Option.none
  | _ => .ok Option.none

/-- `ask_llm_for_answer` (`max_retries = 5` as at every call site): the
retry loop, then reply-content extraction and parsing.  The prompt
strings do not influence the modelled result; the oracle `net` is
already specialised to this call by the caller. -/
def ask_llm_for_answer (hasToken : Bool) (net : Nat → LlmAttempt) : Except PyExn PyVal :=
  if ¬hasToken then .ok (llmErr "Missing AI token")
  else
    match askLlmLoop net 5 5 0 with
    | .errDict d => .ok d
    | .success result =>
      match llmExtractContent result with
      | .error e => .error e
      | .ok Option.none =>
        .ok (.dict [("answer", .none),
          ("error", .str ("Malformed LLM response: " ++ jsonDecodeErrMsg)),
          ("raw", .str (String.take (pyStr result) 200))])
      | .ok (some content) =>
        let raw := pyStripStr (cleanFences (pyStripStr content))
        .ok (llmParseContent raw)

/-! ### `solve_single_quiz` (`quiz_solver.py`) — collaborators and stages -/

/-- The projections of a loaded `pandas` dataframe the solver renders
into its LLM context (`download_and_load_data` and the STEP-7 context
builder). The strings are opaque library output. -/
structure DataFile where
  metaStr : String
  columnsStr : String
  shapeStr : String
  headStr : String
  /-- `describe()` text when numeric columns exist, else `none`. -/
  statsStr : Option String

/-- Transport outcome of a `requests.get` API call. -/
structure ApiNetResp where
  status : Nat
  contentType : String
  body : String

/-- Transport outcome of the submission `requests.post`. -/
inductive PostNet where
  | httpErr (code : Nat) (text : String)
  | exc (msg : String)
  | ok (body : String)

/-- The external collaborators of one quiz attempt.  Each field stands
for an out-of-scope component: the Playwright renderer, BeautifulSoup,
the chat-completions endpoint, file download plus pandas loading, API
calls, and the grading endpoint. -/
structure Ext where
  /-- Is `OPENAI_API_KEY` configured? -/
  hasToken : Bool
  /-- `fetch_page_html_and_text(url)`: transport failure or `(html, text)`. -/
  fetch : String → Except String (String × String)
  /-- `BeautifulSoup(html, 'html.parser')` projections. -/
  soup : String → SoupView
  /-- Chat-completions transport per `(question_text, context_text)` and
  attempt index. -/
  llm : String → String → Nat → LlmAttempt
  /-- `download_and_load_data(url)`: failure message or loaded file. -/
  download : String → Except String DataFile
  /-- `requests.get(url, headers=…, timeout=30)`. -/
  apiGet : String → PyVal → Except String ApiNetResp
  /-- `requests.post(submit_url, json=payload, timeout=30)`. -/
  post : String → PyVal → PostNet

/-- Expansion of one `<a href>` into harvested URLs (the STEP-2 loop
body): unicode-escape the href (keeping it unchanged on failure), then
absolute / root-relative / path-relative handling. -/
def hrefExpand (quizUrl href0 : String) : List String :=
  let href := match pyUnicodeEscape href0 with
    | some h => h
    | Option.none => href0
  if pyStartsWith href "http" then [href]
  else if pyStartsWith href "/" then [urlBase quizUrl ++ href]
  else if ¬(pyStartsWith href "#" ∨ pyStartsWith href "javascript:" ∨
      pyStartsWith href "mailto:") then
    [urlDir quizUrl ++ "/" ++ href]
  else []

/-- Append with set-style dedup (first occurrence kept).  Python's
`all_urls` is a `set`; its iteration order is hash-dependent, modelled
here as insertion order — no claim depends on the ordering. -/
def dedupAppend (acc : List String) (xs : List String) : List String :=
  xs.foldl (fun a x => if a.contains x then a else a ++ [x]) acc

/-- STEP 2 URL harvesting: regex URLs from the (decoded-augmented) text,
then processed hrefs, then absolute `src` attributes. -/
def collectAllUrls (quizUrl text : String) (sv : SoupView) : List String :=
  let u1 := dedupAppend [] (findAllUrls text)
  let u2 := dedupAppend u1 (sv.hrefs.flatMap (hrefExpand quizUrl))
  dedupAppend u2 (sv.srcs.filter (fun s => s ≠ "" ∧ pyStartsWith s "http"))

/-- STEP-2 submit-URL inference when extraction found nothing: derive
`scheme://host/submit` from the quiz URL and keep it only if the page
text mentions it (or mentions `/submit` at all). -/
def inferSubmitUrl (quizUrl text : String) : Option String :=
  let parsed := ((pySplitCh quizUrl '?').head?).getD quizUrl
  let potential := urlBase parsed ++ "/submit"
  if strContainsSub text potential ∨ strContainsSub text "/submit" then some potential
  else Option.none

/-- The fallback `task_info` used when the analysis reply fails to parse
as JSON (or the analysis answer is not a string). -/
def defaultTaskInfo (otherUrls downloadLinks : List String) : PyVal :=
  .dict [("task_type", .str "unknown"),
    ("needs_external_url", .bool (!otherUrls.isEmpty)),
    ("needs_file_download", .bool (!downloadLinks.isEmpty)),
    ("expected_answer_type", .str "string")]

/-- Class `[A-Za-z0-9_-]` (key-term pattern 4 capture). -/
def isIdentCls (c : Char) : Bool :=
  (c ≥ 'a' && c ≤ 'z') || (c ≥ 'A' && c ≤ 'Z') || (c ≥ '0' && c ≤ '9') ||
    c = Char.ofNat 95 || c = '-'

/-- The four key-term scrape patterns (STEP 4, `IGNORECASE`), built
around the escaped `term` literal. -/
def keyTermPatterns (term : String) : List (List Tok) :=
  [ [.simple (.lit term.data true), .simple (.cls (fun c => !(isWordChar c)) .star),
      .simple (.cls (fun c => c = ':' || c = '-' || c = '=') .optQ),
      .simple (.cls isPySpace .star), .capSeq [.cls isUrlCls .plus]]
  , [.simple (.lit term.data true), .simple (.cls (fun c => !(isWordChar c)) .star),
      .simple (.lit "is".data true), .simple (.cls (fun c => !(isWordChar c)) .star),
      .capSeq [.cls isUrlCls .plus]]
  , [.simple (.lit "<".data true), .simple (.cls (fun c => c ≠ '>') .star),
      .simple (.lit term.data true), .simple (.cls (fun c => c ≠ '>') .star),
      .simple (.lit ">".data true), .capSeq [.cls (fun c => c ≠ '<') .plus],
      .simple (.lit "</".data true)]
  , [.simple (.lit term.data true),
      .simple (.cls (fun c => c = ':' || isPySpace c) .plus),
      .capSeq [.cls isIdentCls .plus]]
  ]

/-- The inner pattern loop of STEP 4: first key-term pattern whose
stripped capture is nonempty while no answer is set yet. Mirrors the
source exactly: a match with an empty stripped capture (impossible for
these captures) or with an answer already set does not break. -/
def keyTermSearch (term subText : String) : Option String :=
  (keyTermPatterns term).foldl
    (fun acc pat =>
      match acc with
      | some r => some r
      | Option.none =>
        match reSearch pat subText.data with
        | some (cap, _) =>
          let potential := pyStripStr (String.mk cap)
          if potential ≠ "" then some potential else Option.none
        | Option.none => Option.none)
    Option.none

/-- `task_info["key_terms"]` as an iterable of terms: a list yields its
items, a string yields its characters (Python string iteration), anything
else raises `TypeError` (caught by the per-URL handler). A non-string
item raises `TypeError` inside `re.escape` (also caught). -/
def keyTermsOf (v : PyVal) : Option (List (Option String)) :=
  match v with
  | .list xs => some (xs.map (fun x => match x with | .str s => some s | _ => Option.none))
  | .str s => some (s.data.map (fun c => some (String.mk [c])))
  | _ => Option.none

/-- The three API-header patterns of STEP 6 (`IGNORECASE`); the loop has
no break, so the last matching pattern wins. -/
def apiHeaderPatterns : List (List Tok) :=
  [ [.simple (.lit "header".data true), .simple (.cls (fun c => lowerCh c = 's') .optQ),
      .simple (.cls (fun c => c = ':' || isPySpace c) .plus),
      .capSeq [.lit [Char.ofNat 123] false, .cls (fun c => c ≠ Char.ofNat 125) .plus,
        .lit [Char.ofNat 125] false]]
  , [.simple (.lit "Authorization".data true),
      .simple (.cls (fun c => c = ':' || isPySpace c) .plus),
      .capSeq [.cls isUrlCls .plus]]
  , [.simple (.lit "API".data true), .simple (.cls (fun c => c = '-' || c = ' ') .optQ),
      .simple (.lit "key".data true),
      .simple (.cls (fun c => c = ':' || isPySpace c) .plus),
      .capSeq [.cls isUrlCls .plus]]
  ]

/-- STEP-6 header extraction from the question text: each matching
pattern overwrites `headers` with the parsed JSON object, or with an
`Authorization` singleton when the capture is not JSON. -/
def extractApiHeaders (questionText : String) : PyVal :=
  apiHeaderPatterns.foldl
    (fun acc pat =>
      match reSearch pat questionText.data with
      | some (cap, _) =>
        match jsonLoads (String.mk cap) with
        | some v => v
        | Option.none => .dict [("Authorization", .str (String.mk cap))]
      | Option.none => acc)
    (.dict [])

/-- Does a URL look like an API endpoint (STEP-6 indicator list)? -/
def looksLikeApi (url : String) : Bool :=
  ["/api/", ".json", "/v1/", "/v2/", "api."].any
    (fun ind => strContainsSub (pyLower url) ind)

/-- STEP-8 expected-type conversion (`quiz_solver.py` lines 444-463):
`number` parses comma/space-cleaned strings, `boolean` tests the
lower-casing against `["true", "yes", "1"]`, `json` runs `json.loads`,
anything else (including the `string` tag) is untouched; conversion
failures leave the value unchanged. -/
def convertExpected (expected : PyVal) (v : PyVal) : PyVal :=
  if pyEq expected (.str "number") then
    match v with
    | .str s =>
      let clean := removeAllCh (removeAllCh s ',') ' '
      if strContainsSub clean "." then
        match pyFloatOfString clean with
        | some q => .float q
        | Option.none => v
      else
        match pyIntOfString clean with
        | some n => .int n
        | Option.none => v
    | _ => v
  else if pyEq expected (.str "boolean") then
    match v with
    | .str s => .bool (["true", "yes", "1"].contains (pyLower s))
    | _ => v
  else if pyEq expected (.str "json") then
    match v with
    | .str s =>
      match jsonLoads s with
      | some p => p
      | Option.none => v
    | _ => v
  else v

/-- STEP-9 final fallback (lines 469-484): first numeric literal in the
page text; else the first `h1/h2/h3/strong/b` whose stripped text has
length strictly between 0 and 100; else the sentinel `"unknown"`. -/
def step9Fallback (text : String) (headings : List String) : PyVal :=
  match findFirstNumberStr text with
  | some numStr =>
    if strContainsSub numStr "." then
      match pyFloatOfString numStr with
      | some q => .float q
      | Option.none => .str "unknown"
    else
      match pyIntOfString numStr with
      | some n => .int n
      | Option.none => .str "unknown"
  | Option.none =>
    let fromHeading :=
      (headings.filterMap (fun h =>
        let t := pyStripStr h
        if 0 < t.length ∧ t.length < 100 then some t else Option.none)).head?
    match fromHeading with
    | some t => .str t
    | Option.none => .str "unknown"

/-- `re.sub(r'^(Answer:|Response:|Result:)\s*', '', s, flags=IGNORECASE)`:
the anchor restricts matching to position zero. -/
def answerLabelSub (s : String) : String :=
  let low := pyLower s
  let dropN : Option Nat :=
    if pyStartsWith low "answer:" then some 7
    else if pyStartsWith low "response:" then some 9
    else if pyStartsWith low "result:" then some 7
    else Option.none
  match dropN with
  | some n =>
    let rest := s.data.drop n
    String.mk (rest.dropWhile isPySpace)
  | Option.none => s

/-- `.strip()` on a dynamically typed value: `AttributeError` unless it
is a string (the uncaught crash site of STEP 7, line 424). -/
def pyStripVal : PyVal → Except PyExn String
  | .str s => .ok (pyStripStr s)
  | _ => .error (.attributeError "no attribute strip")

/-- The STEP-1 text augmentation (lines 134-137): base64-decoded hidden
content, when present, is appended to the visible page text before
anything downstream reads it. -/
def augmentText (text0 html : String) : String :=
  if decode_base64_in_html html ≠ "" then
    text0 ++ "\n\n" ++ decode_base64_in_html html
  else text0

/-- Outcome of the STEP-4 key-term loop over one scraped page. -/
inductive TermLoopOut where
  | found (term potential : String)
  | aborted
  | nothing

/-- Iterate the key terms over one scraped page's text: a non-string
term raises inside `re.escape` (→ `aborted`, caught per URL); otherwise
the first term whose pattern search sets the answer wins. -/
def termLoop : List (Option String) → String → TermLoopOut
  | [], _ => .nothing
  | Option.none :: _, _ => .aborted
  | some t :: rest, sub =>
    match keyTermSearch t sub with
    | some p => .found t p
    | Option.none => termLoop rest sub

/-- Result of the STEP-4 scrape loop: pages gathered so far and the
pattern-matched answer (with its `llm_info`), if one was found. -/
structure ScrapeOut where
  scraped : List (String × String)
  ans : Option (PyVal × PyVal)

/-- The STEP-4 scrape loop.  Each URL's body is a `try` block: a fetch
failure or a key-term `TypeError` falls through to the next URL (content
scraped before the failure is kept, as in the source); a successful
key-term match breaks out of the loop. -/
def scrapeLoop (ext : Ext) (taskInfo : PyVal) :
    List String → List (String × String) → ScrapeOut
  | [], scraped => ⟨scraped, Option.none⟩
  | url :: rest, scraped =>
    match ext.fetch url with
    | .error _ => scrapeLoop ext taskInfo rest scraped
    | .ok (subHtml, subText0) =>
      let dec := decode_base64_in_html subHtml
      let subText := if dec ≠ "" then subText0 ++ "\n\n" ++ dec else subText0
      let scraped2 := scraped ++ [(url, subText)]
      if pyTruthy (pyGet taskInfo "key_terms") then
        match keyTermsOf (pyGet taskInfo "key_terms") with
        | Option.none => scrapeLoop ext taskInfo rest scraped2
        | some terms =>
          match termLoop terms subText with
          | .found term potential =>
            ⟨scraped2, some (.str potential,
              .dict [("mode", .str "scrape_pattern_match"), ("source", .str url),
                ("term", .str term)])⟩
          | .aborted => scrapeLoop ext taskInfo rest scraped2
          | .nothing => scrapeLoop ext taskInfo rest scraped2
      else scrapeLoop ext taskInfo rest scraped2

/-- The STEP-5 download loop: failures are caught and skipped. -/
def downloadLoop (ext : Ext) (quizUrl : String) : List String → List (String × DataFile)
  | [] => []
  | link :: rest =>
    let full := normalize_url quizUrl link
    match ext.download full with
    | .ok df => (full, df) :: downloadLoop ext quizUrl rest
    | .error _ => downloadLoop ext quizUrl rest

/-- The STEP-6 API loop: JSON bodies are parsed (a parse failure is the
caught `response.json()` exception), other bodies kept as text. -/
def apiLoop (ext : Ext) (headers : PyVal) : List String → List (String × Nat × PyVal)
  | [] => []
  | url :: rest =>
    if looksLikeApi url then
      match ext.apiGet url headers with
      | .ok resp =>
        if strContainsSub resp.contentType "application/json" then
          match jsonLoads resp.body with
          | some d => (url, resp.status, d) :: apiLoop ext headers rest
          | Option.none => apiLoop ext headers rest
        else (url, resp.status, .str resp.body) :: apiLoop ext headers rest
      | .error _ => apiLoop ext headers rest
    else apiLoop ext headers rest

/-- The STEP-7 context assembly (question, page text, scraped pages,
data-file summaries, API responses; the per-section truncations of the
source).  The `indent=2` JSON rendering of dict API payloads is
abstracted by the compact rendering. -/
def buildContext (questionText text : String) (scraped : List (String × String))
    (dfs : List (String × DataFile)) (apis : List (String × Nat × PyVal)) : String :=
  let parts0 := ["QUESTION: " ++ questionText, "\nMAIN PAGE CONTENT:\n" ++ text]
  let parts1 :=
    if scraped.isEmpty then parts0
    else parts0 ++ ["\n\nSCRAPED PAGES:"] ++
      scraped.map (fun it => "\nURL: " ++ it.1 ++ "\nContent: " ++ String.take it.2 2000)
  let parts2 :=
    if dfs.isEmpty then parts1
    else parts1 ++ ["\n\nDATA FILES:"] ++
      dfs.flatMap (fun it =>
        ["\nFile: " ++ it.1, "Columns: " ++ it.2.columnsStr, "Shape: " ++ it.2.shapeStr,
          "First few rows:\n" ++ it.2.headStr] ++
        (match it.2.statsStr with
         | some st => ["Summary statistics:\n" ++ st]
         | Option.none => []))
  let parts3 :=
    if apis.isEmpty then parts2
    else parts2 ++ ["\n\nAPI RESPONSES:"] ++
      apis.flatMap (fun it =>
        let dataStr :=
          match it.2.2 with
          | .dict kvs => jsonDumps (.dict kvs)
          | v => pyStr v
        ["\nAPI: " ++ it.1, "Status: " ++ toString it.2.1,
          "Data: " ++ String.take dataStr 1000])
  joinWith "\n" parts3

/-- The STEP-3 analysis prompt (the braces of the embedded JSON template
are rendered literally). -/
def analysisPrompt (questionText : String) : String :=
  "Analyze this question and respond with a JSON object:\nQuestion: " ++ questionText ++
  "\n\nRespond with:\n\x7b\n  \"task_type\": \"scraping\" | \"api\" | \"data_analysis\"" ++
  " | \"visualization\" | \"text_processing\" | \"combination\",\n" ++
  "  \"needs_external_url\": true/false,\n  \"needs_file_download\": true/false,\n" ++
  "  \"expected_answer_type\": \"string\" | \"number\" | \"boolean\" | \"json\"" ++
  " | \"base64_file\",\n  \"what_to_extract\": \"brief description of what to" ++
  " extract/compute\",\n  \"key_terms\": [\"list\", \"of\", \"keywords\", \"to\"," ++
  " \"look\", \"for\"]\n\x7d"

/-- The STEP-7 answer prompt. -/
def mainPrompt (questionText : String) (expectedType : PyVal) : String :=
  "Based on all the information provided, answer this question EXACTLY as requested." ++
  "\n\nQuestion: " ++ questionText ++
  "\n\nExpected answer type: " ++ pyStr expectedType ++
  "\n\nIMPORTANT INSTRUCTIONS:\n- Provide ONLY the answer value, nothing else.\n" ++
  "- If it's a number, return just the number (e.g., 12345).\n" ++
  "- If it's a string, return just the string (e.g., secretcode123).\n" ++
  "- If it's JSON, return valid JSON only.\n" ++
  "- If you need to create a visualization, return it as a base64 data URI.\n" ++
  "- Do NOT include any explanation, preamble, or additional text.\n" ++
  "- Do NOT include the question in your response.\n- Just the answer value."

/-- `{"correct": False, "error": "Submission failed: …"}` result. -/
def submitFailDict (msg : String) (answer llmInfo : PyVal) : PyVal :=
  .dict [("correct", .bool false), ("error", .str ("Submission failed: " ++ msg)),
    ("used_answer", answer), ("llm_info", llmInfo)]

/-- STEP 10: payload assembly, the 1 MiB size gate, and the submission
POST with its response handling. -/
def step10Submit (ext : Ext) (email secret quizUrl submitU : String)
    (answer llmInfo : PyVal) : PyVal :=
  let payload : PyVal := .dict [("email", .str email), ("secret", .str secret),
    ("url", .str quizUrl), ("answer", answer)]
  let payloadSize := pyUtf8Len (jsonDumps payload)
  if payloadSize > 1024 * 1024 then
    .dict [("correct", .bool false),
      ("error", .str ("Payload too large: " ++ toString payloadSize ++ " bytes (max 1MB)")),
      ("used_answer", answer), ("llm_info", llmInfo)]
  else
    match ext.post submitU payload with
    | .ok body =>
      match jsonLoads body with
      | some (.dict kvs) =>
        .dict [("correct", .bool (pyTruthy (pyGet (.dict kvs) "correct"))),
          ("url", pyGet (.dict kvs) "url"), ("reason", pyGet (.dict kvs) "reason"),
          ("used_answer", answer), ("llm_info", llmInfo)]
      | some _ => submitFailDict "no attribute get" answer llmInfo
      | Option.none => submitFailDict jsonDecodeErrMsg answer llmInfo
    | .httpErr code text =>
      .dict [("correct", .bool false),
        ("error", .str ("HTTP Error: " ++ toString code ++ " - " ++ String.take text 200)),
        ("used_answer", answer), ("llm_info", llmInfo)]
    | .exc msg => submitFailDict msg answer llmInfo

/-- STEP 7 (lines 405-441): when no answer was found by the key-term
scan, ask the reasoning collaborator once more over the full assembled
context; `raw_answer.strip()` (line 424) raises on a truthy non-string
answer that passed the not-in-list guard. -/
def step7Run (ext : Ext) (questionText ctx : String) (taskInfo : PyVal)
    (st4 : PyVal × PyVal) (scrapedLen dfsLen apisLen : Nat) :
    Except PyExn (PyVal × PyVal) :=
  if st4.1 = PyVal.none then
    match ask_llm_for_answer ext.hasToken
      (ext.llm (mainPrompt questionText
        (pyGetD taskInfo "expected_answer_type" (.str "unknown"))) ctx) with
    | .error e => .error e
    | .ok lr =>
      let raw := pyGetD lr "answer" (.str "")
      if pyTruthy raw ∧ ¬(pyIn raw [.none, .str "", .str "unknown", .str "Unknown"]) then
        match pyStripVal raw with
        | .error e => .error e
        | .ok s =>
          let cleaned := pyStripStr (answerLabelSub s)
          .ok (PyVal.str cleaned,
            PyVal.dict [("mode", .str "llm_comprehensive"),
              ("task_type", pyGet taskInfo "task_type"),
              ("sources_used", .dict [("scraped_pages", .int scrapedLen),
                ("data_files", .int dfsLen), ("api_calls", .int apisLen)])])
      else .ok st4
  else .ok st4

/-- STEPS 8-10 (lines 443-523): expected-type conversion, the first-number
/ heading / sentinel fallback, and submission (or the no-submit-URL
result dict).  This tail is total: every branch returns a dict. -/
def finishResult (ext : Ext) (email secret u html decoded text questionText : String)
    (headings : List String) (taskInfo : PyVal) (submitUrl : Option String)
    (s7 : PyVal × PyVal) : PyVal :=
  let answer2 :=
    if s7.1 ≠ PyVal.none then
      convertExpected (pyGetD taskInfo "expected_answer_type" (.str "string")) s7.1
    else s7.1
  let answer3 :=
    if answer2 = PyVal.none ∨ pyEq answer2 (.str "") then step9Fallback text headings
    else answer2
  match submitUrl with
  | some su =>
    if su = "" then
      .dict [("correct", .bool false),
        ("error", .str "No submit URL found in the question"),
        ("used_answer", answer3), ("llm_info", s7.2),
        ("debug_info", .dict [("question_preview", .str (String.take questionText 500)),
          ("html_preview", if html ≠ "" then .str (String.take html 500) else .none),
          ("decoded_content_preview",
            if decoded ≠ "" then .str (String.take decoded 500) else .none)])]
    else step10Submit ext email secret u su answer3 s7.2
  | Option.none =>
    .dict [("correct", .bool false),
      ("error", .str "No submit URL found in the question"),
      ("used_answer", answer3), ("llm_info", s7.2),
      ("debug_info", .dict [("question_preview", .str (String.take questionText 500)),
        ("html_preview", if html ≠ "" then .str (String.take html 500) else .none),
        ("decoded_content_preview",
          if decoded ≠ "" then .str (String.take decoded 500) else .none)])]

/-- `solve_single_quiz(email, secret, quiz_url, time_left_seconds)`.

The result is the returned dict; a raised exception is `Except.error`.
Four sites raise: the un-guarded initial render (line 131), the
resolver's `.strip()` on a non-string reply content (`llm_interface.py`
line 240, surfaced through `ask_llm_for_answer`), a non-dict parsed
`task_info` at its first `.get` (line 237), and STEP 7's `.strip()` on
a non-string LLM answer (line 424).  The `time_left_seconds` parameter
is accepted and, exactly as in the source, never read. -/
def solve_single_quiz (ext : Ext) (email secret : String) (quizUrl : PyVal)
    (time_left_seconds : ℚ) : Except PyExn PyVal :=
  match quizUrl with
  | .str u =>
    match ext.fetch u with
    | .error msg => .error (.other msg)
    | .ok (html, text0) =>
      let sv := ext.soup html
      let decoded := decode_base64_in_html html
      let text := augmentText text0 html
      let questionText := pyStripStr text
      let allUrls := collectAllUrls u text sv
      let submitUrl :=
        match find_submit_url_from_content text html sv with
        | some s => some s
        | Option.none => inferSubmitUrl u text
      let otherUrls := allUrls.filter (fun x =>
        x != u && (match submitUrl with | some s => x != s | Option.none => true))
      let downloadLinks := find_download_links_from_html sv
      match ask_llm_for_answer ext.hasToken (ext.llm (analysisPrompt questionText) text) with
      | .error e => .error e
      | .ok qa =>
        let parsedTI : Option PyVal :=
          match pyGetD qa "answer" (.str "\x7b\x7d") with
          | .str s => jsonLoads s
          | _ => Option.none
        let taskInfoE : Except PyExn PyVal :=
          match parsedTI with
          | some (.dict kvs) => .ok (PyVal.dict kvs)
          | some _ => .error (PyExn.attributeError "no attribute get")
          | Option.none => .ok (defaultTaskInfo otherUrls downloadLinks)
        match taskInfoE with
        | .error e => .error e
        | .ok taskInfo =>
          let doScrape := (pyTruthy (pyGet taskInfo "needs_external_url") ||
            pyEq (pyGet taskInfo "task_type") (.str "scraping")) && !otherUrls.isEmpty
          let scrapeOut :=
            if doScrape then scrapeLoop ext taskInfo otherUrls [] else ⟨[], Option.none⟩
          let st4 : PyVal × PyVal :=
            match scrapeOut.ans with
            | some (a, i) => (a, i)
            | Option.none => (.none, .dict [])
          let doDownload := pyTruthy (pyGet taskInfo "needs_file_download") ||
            !downloadLinks.isEmpty || pyEq (pyGet taskInfo "task_type") (.str "data_analysis")
          let dfs := if doDownload then downloadLoop ext u downloadLinks else []
          let doApi := pyEq (pyGet taskInfo "task_type") (.str "api") ||
            strContainsSub (pyLower questionText) "api"
          let apis := if doApi then apiLoop ext (extractApiHeaders questionText) otherUrls else []
          match step7Run ext questionText
            (buildContext questionText text scrapeOut.scraped dfs apis) taskInfo st4
            scrapeOut.scraped.length dfs.length apis.length with
          | .error e => .error e
          | .ok s7 =>
            .ok (finishResult ext email secret u html decoded text questionText
              sv.headings taskInfo submitUrl s7)
  | _ => .error (.typeError "quiz url is not a string")

/-! ### `solve_quiz` (the chain driver)

Wall-clock reads (`time.time() - start_time`) are the stream
`clock : Nat → ℚ` of elapsed values, consumed one index per call: the
loop-top read of iteration `k` is `clock k`, and the fresh read in a
`completed`/`failed` return is the next index (the `timeout` return
reuses the loop-top value, as the source does). -/

/-- `max_retries_per_question` (line 571). -/
def maxRetriesPerQuestion : Nat := 2

/-- The post-attempt decision of the chain loop (lines 623-676), taken
on the already-incremented attempt counter and the `time_left` computed
from the loop-top clock read. -/
inductive ChainAct where
  | retry
  | advance (u : PyVal)
  | finishCompleted
  | finishFailed (reason : PyVal)

/-- Decision logic of `solve_quiz` after one attempt: on `correct`,
advance or finish; otherwise retry while attempts and time remain, else
advance when a next URL exists or fail. -/
def chainDecision (attempts : Nat) (timeLeft : ℚ) (r : PyVal) : ChainAct :=
  if pyTruthy (pyGet r "correct") then
    if pyTruthy (pyGet r "url") then .advance (pyGet r "url") else .finishCompleted
  else
    if pyTruthy (pyGet r "url") then
      if attempts < maxRetriesPerQuestion ∧ timeLeft > 30 then .retry
      else .advance (pyGet r "url")
    else
      if attempts < maxRetriesPerQuestion ∧ timeLeft > 30 then .retry
      else .finishFailed (pyGet r "reason")

/-- The history record appended after every attempt (lines 602-611). -/
def histEntry (url : PyVal) (attempt : Nat) (r : PyVal) (elapsed : ℚ) : PyVal :=
  .dict [("url", url), ("attempt", .int attempt), ("correct", pyGet r "correct"),
    ("used_answer", pyGet r "used_answer"), ("reason", pyGet r "reason"),
    ("error", pyGet r "error"), ("llm_info", pyGet r "llm_info"),
    ("elapsed_seconds", .float elapsed)]

/-- The `timeout` report (lines 578-583). -/
def timeoutReport (history : List PyVal) (elapsed : ℚ) : PyVal :=
  .dict [("status", .str "timeout"), ("history", .list history),
    ("elapsed_seconds", .float elapsed),
    ("message", .str "Quiz timed out after 3 minutes")]

/-- The `completed` report (lines 635-640). -/
def completedReport (history : List PyVal) (elapsed : ℚ) : PyVal :=
  .dict [("status", .str "completed"), ("history", .list history),
    ("elapsed_seconds", .float elapsed),
    ("message", .str "Quiz completed successfully!")]

/-- The `failed` report (lines 670-676). -/
def failedReport (history : List PyVal) (elapsed : ℚ) (attempts : Nat)
    (lastReason : PyVal) : PyVal :=
  .dict [("status", .str "failed"), ("history", .list history),
    ("elapsed_seconds", .float elapsed),
    ("message", .str ("Failed after " ++ toString attempts ++ " attempts")),
    ("last_reason", lastReason)]

/-- The mutable state of the chain loop. -/
structure ChainSt where
  currentUrl : PyVal
  history : List PyVal
  attempts : Nat

/-- The `while True` loop of `solve_quiz`, fuel-bounded (`Option.none`
means the fuel ran out before the loop returned). -/
def solveQuizLoop (ext : Ext) (clock : Nat → ℚ) (email secret : String) (timeout : ℚ) :
    Nat → ChainSt → Nat → Except PyExn (Option PyVal)
  | 0, _, _ => .ok Option.none
  | fuel + 1, st, k =>
    let elapsed := clock k
    if elapsed > timeout then .ok (some (timeoutReport st.history elapsed))
    else
      let timeLeft := timeout - elapsed
      match solve_single_quiz ext email secret st.currentUrl timeLeft with
      | .error e => .error e
      | .ok r =>
        let attempts := st.attempts + 1
        let hist := st.history ++ [histEntry st.currentUrl attempts r elapsed]
        match chainDecision attempts timeLeft r with
        | .finishCompleted => .ok (some (completedReport hist (clock (k + 1))))
        | .finishFailed reason =>
          .ok (some (failedReport hist (clock (k + 1)) attempts reason))
        | .retry =>
          solveQuizLoop ext clock email secret timeout fuel
            ⟨st.currentUrl, hist, attempts⟩ (k + 1)
        | .advance u =>
          solveQuizLoop ext clock email secret timeout fuel ⟨u, hist, 0⟩ (k + 1)

/-- `solve_quiz(email, secret, start_url, start_time, timeout_seconds)`:
run the loop from the start URL with an empty history. -/
def solve_quiz (ext : Ext) (clock : Nat → ℚ) (email secret startUrl : String)
    (timeout : ℚ) (fuel : Nat) : Except PyExn (Option PyVal) :=
  solveQuizLoop ext clock email secret timeout fuel ⟨.str startUrl, [], 0⟩ 0

/-- The timed trace of the chain loop: one `(loop-top elapsed, network-op
start times)` pair per iteration that proceeded past the deadline check
and invoked `solve_single_quiz`.  The schedule `sched i` lists the
elapsed times at which the network operations of iteration `i` started;
the code contains no time gate below the loop-top check, so the schedule
is constrained only by physics (`chainSchedConsistent`). -/
def chainTrace (ext : Ext) (clock : Nat → ℚ) (sched : Nat → List ℚ)
    (email secret : String) (timeout : ℚ) :
    Nat → ChainSt → Nat → Nat → List (ℚ × List ℚ)
  | 0, _, _, _ => []
  | fuel + 1, st, k, i =>
    let elapsed := clock k
    if elapsed > timeout then []
    else
      let entry := (elapsed, sched i)
      let timeLeft := timeout - elapsed
      match solve_single_quiz ext email secret st.currentUrl timeLeft with
      | .error _ => [entry]
      | .ok r =>
        let attempts := st.attempts + 1
        let hist := st.history ++ [histEntry st.currentUrl attempts r elapsed]
        match chainDecision attempts timeLeft r with
        | .finishCompleted => [entry]
        | .finishFailed _ => [entry]
        | .retry =>
          entry :: chainTrace ext clock sched email secret timeout fuel
            ⟨st.currentUrl, hist, attempts⟩ (k + 1) (i + 1)
        | .advance u =>
          entry :: chainTrace ext clock sched email secret timeout fuel
            ⟨u, hist, 0⟩ (k + 1) (i + 1)

/-- Physical consistency of a schedule with the clock stream: the clock
is monotone, and every network operation of iteration `i` starts no
earlier than that iteration's loop-top read and no later than the next
read. -/
def chainSchedConsistent (clock : Nat → ℚ) (sched : Nat → List ℚ) : Prop :=
  (∀ k, clock k ≤ clock (k + 1)) ∧
  ∀ i t, t ∈ sched i → clock i ≤ t ∧ t ≤ clock (i + 1)

/-! ### Concrete collaborator fixtures

Small closed environments used to evaluate the embedded solver on
explicit inputs (counterexamples and witnesses). -/

/-- A soup view with no forms, attributes, code blocks, links or headings. -/
def svEmpty : SoupView := ⟨[], [], [], [], [], [], []⟩

/-- A soup view with one `<h1>Hello World</h1>`. -/
def svHeading : SoupView := ⟨[], [], [], [], [], [], ["Hello World"]⟩

/-- A chat-completions 200 body whose message content is `content`. -/
def llmBody (content : String) : String :=
  jsonDumps (.dict [("choices", .list [.dict [("message",
    .dict [("content", .str content)])]])])

/-- A network oracle whose every attempt fails with a connection error. -/
def netAllFail (_q _c : String) (_n : Nat) : LlmAttempt := .connErr "down"

/-- A network oracle that fails the analysis call (its prompt starts
with `Analyze`) and answers the main call with `content`. -/
def netMain (content : String) (q _c : String) (_n : Nat) : LlmAttempt :=
  if pyStartsWith q "Analyze" then .connErr "down"
  else .status 200 Option.none (llmBody content)

/-- Quiz page URL used by the fixtures. -/
def urlQ1 : String := "https://q.example/q1"

/-- Page text with a submit instruction and no digits. -/
def pageText1 : String :=
  "What is six times seven? Post your answer to https://q.example/submit"

/-- A grading endpoint that always accepts. -/
def postAccept (_u : String) (_p : PyVal) : PostNet :=
  .ok (jsonDumps (.dict [("correct", .bool true)]))

/-- Fixture for the integer-answer scenario: page renders, analysis
reply fails (giving the default `task_info`), the main reasoning reply
is the JSON object with integer answer 42. -/
def extC5 : Ext where
  hasToken := true
  fetch := fun u => if u = urlQ1 then .ok ("<html></html>", pageText1) else .error "no page"
  soup := fun _ => svEmpty
  llm := netMain "\x7b\"answer\": 42\x7d"
  download := fun _ => .error "no download"
  apiGet := fun _ _ => .error "no api"
  post := postAccept

/-- Fixture whose main reasoning reply is a string that *contains* (but
neither equals nor starts with) a placeholder phrase. -/
def extC6 : Ext where
  hasToken := true
  fetch := fun u => if u = urlQ1 then .ok ("<html></html>", pageText1) else .error "no page"
  soup := fun _ => svEmpty
  llm := netMain "\x7b\"answer\": \"this is a placeholder\"\x7d"
  download := fun _ => .error "no download"
  apiGet := fun _ _ => .error "no api"
  post := postAccept

/-- Fixture where every reasoning call fails and the page has a heading
but no numeric literal. -/
def extC7 : Ext where
  hasToken := true
  fetch := fun u => if u = urlQ1 then .ok ("<html></html>", pageText1) else .error "no page"
  soup := fun _ => svHeading
  llm := netAllFail
  download := fun _ => .error "no download"
  apiGet := fun _ _ => .error "no api"
  post := postAccept

/-- A grading endpoint driving a two-question cycle: submitting the
answer for `q1` is graded correct with next URL `q2`, and `q2` is graded
correct with next URL `q1` again. -/
def postCycle (_u : String) (p : PyVal) : PostNet :=
  if pyGet p "url" = .str urlQ1 then
    .ok (jsonDumps (.dict [("correct", .bool true), ("url", .str "https://q.example/q2")]))
  else
    .ok (jsonDumps (.dict [("correct", .bool true), ("url", .str urlQ1)]))

/-- Fixture for the cyclic chain: both pages render with a submit
instruction; grading responses loop `q1 → q2 → q1`. -/
def extCycle : Ext where
  hasToken := true
  fetch := fun u =>
    if u = urlQ1 ∨ u = "https://q.example/q2" then .ok ("<html></html>", pageText1)
    else .error "no page"
  soup := fun _ => svHeading
  llm := netAllFail
  download := fun _ => .error "no download"
  apiGet := fun _ _ => .error "no api"
  post := postCycle

/-- A grading endpoint that rejects every answer and supplies a next URL. -/
def postWrongNext (_u : String) (_p : PyVal) : PostNet :=
  .ok (jsonDumps (.dict [("correct", .bool false), ("url", .str "https://q.example/q7")]))

/-- Fixture where every page renders and every answer is graded
incorrect with a next URL supplied. -/
def extWrongNext : Ext where
  hasToken := true
  fetch := fun _ => .ok ("<html></html>", pageText1)
  soup := fun _ => svHeading
  llm := netAllFail
  download := fun _ => .error "no download"
  apiGet := fun _ _ => .error "no api"
  post := postWrongNext

/-- A grading endpoint that rejects every answer with no next URL. -/
def postWrongStop (_u : String) (_p : PyVal) : PostNet :=
  .ok (jsonDumps (.dict [("correct", .bool false)]))

/-- Fixture where the answer is graded incorrect with no next URL
(the chain retries, then fails). -/
def extWrongStop : Ext where
  hasToken := true
  fetch := fun u => if u = urlQ1 then .ok ("<html></html>", pageText1) else .error "no page"
  soup := fun _ => svHeading
  llm := netAllFail
  download := fun _ => .error "no download"
  apiGet := fun _ _ => .error "no api"
  post := postWrongStop

/-- Fixture whose renderer fails on every page. -/
def extFetchFail : Ext where
  hasToken := true
  fetch := fun _ => .error "net down"
  soup := fun _ => svEmpty
  llm := netAllFail
  download := fun _ => .error "no download"
  apiGet := fun _ _ => .error "no api"
  post := postAccept

/-- Clock stream for the re-attempt run: loop-top elapsed values
`0, 100, 140, 171, …` (monotone). -/
def clockC1 : Nat → ℚ :=
  fun k => if k = 0 then 0 else if k = 1 then 100 else if k = 2 then 140 else 171

/-- Clock stream for the cyclic run: `0, 50, 100, 171, …` (monotone). -/
def clockCyc : Nat → ℚ :=
  fun k => if k = 0 then 0 else if k = 1 then 50 else if k = 2 then 100 else 171

/-- Clock stream for the late-operation run: `0, 172, 172, …`. -/
def clockC4 : Nat → ℚ := fun k => if k = 0 then 0 else 172

/-- Schedule for the late-operation run: iteration 0 starts one network
operation at elapsed 171, past the 170-second budget. -/
def schedC4 : Nat → List ℚ := fun i => if i = 0 then [171] else []

/-- The URLs of a report's history entries, in order. -/
def historyUrls (report : PyVal) : List PyVal :=
  match pyGet report "history" with
  | .list h => h.map (fun e => pyGet e "url")
  | _ => []

/-- The (URL-independent) result every attempt produces under
`extWrongNext`. -/
def wrongNextResult : PyVal :=
  match solve_single_quiz extWrongNext "a@b.c" "sek" (.str urlQ1) 0 with
  | .ok r => r
  | .error _ => .none

/-- The result of an attempt at `q1` under `extCycle`. -/
def cycleResult1 : PyVal :=
  match solve_single_quiz extCycle "a@b.c" "sek" (.str urlQ1) 0 with
  | .ok r => r
  | .error _ => .none

/-- The result of an attempt at `q2` under `extCycle`. -/
def cycleResult2 : PyVal :=
  match solve_single_quiz extCycle "a@b.c" "sek" (.str "https://q.example/q2") 0 with
  | .ok r => r
  | .error _ => .none

/-- The result every attempt produces under `extWrongStop`. -/
def wrongStopResult : PyVal :=
  match solve_single_quiz extWrongStop "a@b.c" "sek" (.str urlQ1) 0 with
  | .ok r => r
  | .error _ => .none

/-- Safety of a resolver result for the STEP-3 `task_info` parse: the
answer value must either not be a string, fail to parse as JSON, or
parse to a JSON object — a string parsing to a non-object would make
`task_info.get` raise `AttributeError` (line 237). -/
def taskSafe (v : PyVal) : Bool :=
  match v with
  | .str s =>
    match jsonLoads s with
    | some (.dict _) => true
    | some _ => false
    | Option.none => true
  | _ => true

/-- Safety of a resolver result for STEP 7's `raw_answer.strip()`
(line 424): either the answer is a string, or it fails the
truthy-and-not-in-list guard so `.strip()` is never reached. -/
def step7Safe (v : PyVal) : Bool :=
  match v with
  | .str _ => true
  | _ => !(pyTruthy v && !(pyIn v [.none, .str "", .str "unknown", .str "Unknown"]))

/-- Safety of a transport reply stream for the content extraction of
`ask_llm_for_answer` (`llm_interface.py` lines 240-241): if the retry
loop ends in a 200 reply, its `choices[0].message.content`, when
present, must be a string — `.strip()` on a non-string content raises
`AttributeError`, which the `except (KeyError, IndexError, TypeError)`
handler does not catch. -/
def contentSafe (out : LlmLoopOut) : Bool :=
  match out with
  | .errDict _ => true
  | .success result =>
    match llmExtractContent result with
    | .error _ => false
    | .ok _ => true

/-- A one-megabyte-plus answer string, used to drive the submission
payload past the 1 MiB gate. -/
def bigAnswer : PyVal := .str (String.mk (List.replicate 1048577 'a'))

instance : DecidableEq (Except PyExn PyVal) := fun a b =>
  match a, b with
  | .ok x, .ok y => decidable_of_iff (x = y) (by constructor <;> (intro h; cases h <;> rfl))
  | .error x, .error y => decidable_of_iff (x = y) (by constructor <;> (intro h; cases h <;> rfl))
  | .ok _, .error _ => isFalse (by intro h; cases h)
  | .error _, .ok _ => isFalse (by intro h; cases h)

/-! ### Supporting lemmas -/

/-- UTF-8 length distributes over string append. -/
theorem pyUtf8Len_append (a b : String) : pyUtf8Len (a ++ b) = pyUtf8Len a + pyUtf8Len b := by
  simp [pyUtf8Len, String.data_append]

/-- A list is a prefix of itself. -/
theorem isPrefixOf_self (l : List Char) : l.isPrefixOf l = true := by
  induction l with
  | nil => rfl
  | cons c rest ih => simp [List.isPrefixOf, ih]

/-- The substring test succeeds on any suffix occurrence. -/
theorem strContainsAux_suffix (pre d : List Char) :
    strContainsSub.strContainsAux (pre ++ d) d = true := by
  induction pre with
  | nil =>
    unfold strContainsSub.strContainsAux
    simp [isPrefixOf_self]
  | cons c rest ih =>
    unfold strContainsSub.strContainsAux
    by_cases h : d.isPrefixOf (c :: rest ++ d) = true
    · simp [h, ih]
    · simp [h, ih]

/-- A string contains any of its suffixes. -/
theorem strContainsSub_suffix (pre d : String) :
    strContainsSub (pre ++ d) d = true := by
  unfold strContainsSub
  rw [String.data_append]
  exact strContainsAux_suffix pre.data d.data

/-- The accumulator loop of `decode_base64_in_html` is `filterMap`. -/
theorem foldl_decode_filterMap (ms : List String) (acc : List String) :
    ms.foldl
      (fun acc m =>
        match decodeAtobPayload m with
        | some s => acc ++ [s]
        | Option.none => acc) acc = acc ++ ms.filterMap decodeAtobPayload := by
  induction ms generalizing acc with
  | nil => simp
  | cons m rest ih =>
    simp only [List.foldl_cons, List.filterMap_cons]
    cases h : decodeAtobPayload m with
    | none => simp [h, ih]
    | some s => simp [h, ih]

/-! ### Claim theorems -/

/-- C9 counterexample: the expected-type normalization is not
idempotent for the `json` tag.  The JSON string literal `"123"`
normalizes to the string `123`, which a second normalization pass
parses again, yielding the integer `123`. -/
theorem c9_normalize_json_not_idempotent :
    convertExpected (.str "json") (convertExpected (.str "json") (.str "\x22123\x22")) ≠
      convertExpected (.str "json") (.str "\x22123\x22") := by
  decide

/-- C9 (amended): the expected-type normalization is idempotent for
every expected-type tag other than `json` (in particular for `number`,
`boolean` and `string`): a `number` conversion yields a non-string,
which the second pass leaves untouched, `boolean` yields a `bool`, and
every other tag is the identity.  For `json` the property fails
(see the counterexample). -/
theorem c9_normalize_idempotent_except_json (expected v : PyVal)
    (h : pyEq expected (.str "json") = false) :
    convertExpected expected (convertExpected expected v) = convertExpected expected v := by
  unfold convertExpected
  by_cases hn : pyEq expected (.str "number") = true
  · simp only [hn, if_true]
    cases v with
    | str s =>
      by_cases hd : strContainsSub (removeAllCh (removeAllCh s ',') ' ') "." = true
      · simp only [hd, if_true]
        cases hf : pyFloatOfString (removeAllCh (removeAllCh s ',') ' ') <;> simp [hd, hf]
      · simp only [hd, Bool.false_eq_true, if_false]
        cases hi : pyIntOfString (removeAllCh (removeAllCh s ',') ' ') <;> simp [hd, hi]
    | none => simp
    | bool b => simp
    | int n => simp
    | float q => simp
    | list xs => simp
    | dict kvs => simp
  · simp only [Bool.not_eq_true] at hn
    simp only [hn, Bool.false_eq_true, if_false]
    by_cases hb : pyEq expected (.str "boolean") = true
    · simp only [hb, if_true]
      cases v <;> simp
    · simp only [Bool.not_eq_true] at hb
      simp [hn, hb, h]

/-- C9 witness for the amended theorem: with the `number` tag, the
string `" 1,234 "` normalizes to the integer `1234` and a second pass
leaves it unchanged. -/
theorem c9_normalize_idempotent_witness :
    pyEq (.str "number") (.str "json") = false ∧
    convertExpected (.str "number") (convertExpected (.str "number") (.str " 1,234 ")) =
      convertExpected (.str "number") (.str " 1,234 ") :=
  ⟨by decide, c9_normalize_idempotent_except_json (.str "number") (.str " 1,234 ") (by decide)⟩

/-- C10: `decode_base64_in_html` is total by construction and
(a) equals the newline-join of exactly the successfully decoded
`atob('…')` payloads (failures silently skipped);
(b) its nonempty output is contained in the page text handed downstream
(`augmentText`, line 134-137 of `quiz_solver.py`);
(c) `find_submit_url_from_content` searches the text with the decoded
content appended (line 44-49). -/
theorem c10_decode_base64_characterization :
    (∀ html : String,
      decode_base64_in_html html =
        joinWith "\n" ((atobFindAll (html.data.length + 1) html.data).filterMap
          decodeAtobPayload)) ∧
    (∀ t h : String, decode_base64_in_html h ≠ "" →
      strContainsSub (augmentText t h) (decode_base64_in_html h) = true) ∧
    (∀ (t h : String) (sv : SoupView), h ≠ "" → decode_base64_in_html h ≠ "" →
      find_submit_url_from_content t h sv =
        findSubmitStrategies (t ++ "\n" ++ decode_base64_in_html h) h sv) := by
  refine ⟨?_, ?_, ?_⟩
  · intro html
    unfold decode_base64_in_html
    dsimp only
    rw [foldl_decode_filterMap]
    simp
  · intro t h hne
    unfold augmentText
    rw [if_pos hne]
    have := strContainsSub_suffix (t ++ "\n\n") (decode_base64_in_html h)
    simpa [String.append_assoc] using this
  · intro t h sv hh hne
    unfold find_submit_url_from_content
    rw [if_pos ⟨hh, hne⟩]

/-- C10 witness: on `"atob('aGk=')"` the decoder yields `"hi"`, the
downstream page text contains it, and the submit-URL search runs on the
augmented text. -/
theorem c10_decode_base64_witness :
    (decode_base64_in_html "atob('aGk=')" =
      joinWith "\n" ((atobFindAll ("atob('aGk=')".data.length + 1)
        "atob('aGk=')".data).filterMap decodeAtobPayload)) ∧
    strContainsSub (augmentText "T" "atob('aGk=')")
      (decode_base64_in_html "atob('aGk=')") = true ∧
    find_submit_url_from_content "T" "atob('aGk=')" svEmpty =
      findSubmitStrategies ("T" ++ "\n" ++ decode_base64_in_html "atob('aGk=')")
        "atob('aGk=')" svEmpty :=
  ⟨c10_decode_base64_characterization.1 "atob('aGk=')",
    c10_decode_base64_characterization.2.1 "T" "atob('aGk=')" (by decide),
    c10_decode_base64_characterization.2.2 "T" "atob('aGk=')" svEmpty (by decide) (by decide)⟩

/-- C5 (code bug): with no downloadable files and the default
(non-numeric) classification, a reasoning reply of `{"answer": 42}`
does not lead to the integer 42 being submitted — `solve_single_quiz`
raises an uncaught `AttributeError` at `raw_answer.strip()` (line 424),
because the parsed answer is an `int`, not a `str`.  The second
conjunct shows the resolver did deliver the integer 42. -/
theorem c5_integer_answer_crashes :
    solve_single_quiz extC5 "a@b.c" "sek" (.str urlQ1) 100 =
      .error (.attributeError "no attribute strip") ∧
    llmParseContent "\x7b\x22answer\x22: 42\x7d" = .dict [("answer", .int 42)] := by
  constructor
  · decide
  · decide

/-- C6 counterexample: the candidate answer `"this is a placeholder"`
contains the configured phrase `"placeholder"`, yet the resolver does
not reject it and it is forwarded to submission (it appears as the
submitted `used_answer` of a completed attempt). -/
theorem c6_containing_placeholder_forwarded :
    strContainsSub "this is a placeholder" "placeholder" = true ∧
    (match solve_single_quiz extC6 "a@b.c" "sek" (.str urlQ1) 100 with
      | .ok r => (pyGet r "used_answer", pyGet r "correct")
      | .error _ => (.none, .none)) =
      (.str "this is a placeholder", .bool true) := by
  constructor
  · decide
  · decide

/-- C6 (amended): for a reply parsing to `{"answer": s}` with `s` a
string, the resolver rejects `s` iff its lower-casing **equals or starts
with** one of the placeholder terms; a string that merely contains a
term elsewhere is returned as the answer (and hence forwarded). -/
theorem c6_placeholder_prefix_only (raw s : String)
    (h : jsonLoads raw = some (.dict [("answer", .str s)])) :
    llmParseContent raw =
      (if placeholderTerms1.any (fun t => pyLower s = t || pyStartsWith (pyLower s) t) then
        .dict [("answer", .none), ("error", .str ("LLM returned placeholder answer: " ++ s))]
      else .dict [("answer", .str s)]) := by
  unfold llmParseContent
  rw [h]
  simp [pyHasKey, pyGet, isPlaceholderAnswer]

/-- C6 witness: `"your secret"` (which starts with the term `"your"`)
is rejected by the amended rule. -/
theorem c6_placeholder_prefix_witness :
    llmParseContent "\x7b\x22answer\x22: \x22your secret\x22\x7d" =
      (if placeholderTerms1.any (fun t =>
          pyLower "your secret" = t || pyStartsWith (pyLower "your secret") t) then
        .dict [("answer", .none),
          ("error", .str ("LLM returned placeholder answer: " ++ "your secret"))]
      else .dict [("answer", .str "your secret")]) :=
  c6_placeholder_prefix_only "\x7b\x22answer\x22: \x22your secret\x22\x7d" "your secret" (by decide)


/-- A graded-incorrect result is retried whenever attempts and time
remain, whether or not a next URL was supplied. -/
theorem chainDecision_retry (attempts : Nat) (tl : ℚ) (r : PyVal)
    (h1 : pyTruthy (pyGet r "correct") = false)
    (h2 : attempts < maxRetriesPerQuestion) (h3 : tl > 30) :
    chainDecision attempts tl r = .retry := by
  unfold chainDecision
  rw [h1]
  by_cases hu : pyTruthy (pyGet r "url") = true
  · rw [hu]; simp [h2, h3]
  · simp only [Bool.not_eq_true] at hu
    rw [hu]; simp [h2, h3]

/-- A graded-incorrect result with a next URL advances once retries or
time run out. -/
theorem chainDecision_advance_wrong (attempts : Nat) (tl : ℚ) (r : PyVal)
    (h1 : pyTruthy (pyGet r "correct") = false)
    (h2 : pyTruthy (pyGet r "url") = true)
    (h3 : ¬(attempts < maxRetriesPerQuestion ∧ tl > 30)) :
    chainDecision attempts tl r = .advance (pyGet r "url") := by
  unfold chainDecision
  rw [h1, h2]
  simp [h3]

/-- A graded-correct result with a next URL advances unconditionally. -/
theorem chainDecision_advance_correct (attempts : Nat) (tl : ℚ) (r : PyVal)
    (h1 : pyTruthy (pyGet r "correct") = true)
    (h2 : pyTruthy (pyGet r "url") = true) :
    chainDecision attempts tl r = .advance (pyGet r "url") := by
  unfold chainDecision
  rw [h1, h2]
  simp

/-- The timeout guard: whenever the loop-top elapsed value exceeds the
budget, the chain loop returns a timeout report immediately. -/
theorem loopTimeoutStep (ext : Ext) (clock : Nat → ℚ) (email secret : String)
    (timeout : ℚ) (fuel k : Nat) (st : ChainSt) (h : clock k > timeout) :
    solveQuizLoop ext clock email secret timeout (fuel + 1) st k =
      .ok (some (timeoutReport st.history (clock k))) := by
  conv_lhs => rw [solveQuizLoop]
  rw [if_pos h]

/-- One retried iteration of the chain loop. -/
theorem loopRetryStep (ext : Ext) (clock : Nat → ℚ) (email secret : String)
    (timeout : ℚ) (fuel k : Nat) (cur : PyVal) (hist : List PyVal) (attempts : Nat)
    (r : PyVal)
    (hok : solve_single_quiz ext email secret cur (timeout - clock k) = .ok r)
    (htime : ¬ clock k > timeout)
    (hdec : chainDecision (attempts + 1) (timeout - clock k) r = .retry) :
    solveQuizLoop ext clock email secret timeout (fuel + 1) ⟨cur, hist, attempts⟩ k =
      solveQuizLoop ext clock email secret timeout fuel
        ⟨cur, hist ++ [histEntry cur (attempts + 1) r (clock k)], attempts + 1⟩ (k + 1) := by
  conv_lhs => rw [solveQuizLoop]
  dsimp only
  rw [if_neg htime, hok]
  dsimp only
  rw [hdec]

/-- One advancing iteration of the chain loop. -/
theorem loopAdvanceStep (ext : Ext) (clock : Nat → ℚ) (email secret : String)
    (timeout : ℚ) (fuel k : Nat) (cur : PyVal) (hist : List PyVal) (attempts : Nat)
    (r u : PyVal)
    (hok : solve_single_quiz ext email secret cur (timeout - clock k) = .ok r)
    (htime : ¬ clock k > timeout)
    (hdec : chainDecision (attempts + 1) (timeout - clock k) r = .advance u) :
    solveQuizLoop ext clock email secret timeout (fuel + 1) ⟨cur, hist, attempts⟩ k =
      solveQuizLoop ext clock email secret timeout fuel
        ⟨u, hist ++ [histEntry cur (attempts + 1) r (clock k)], 0⟩ (k + 1) := by
  conv_lhs => rw [solveQuizLoop]
  dsimp only
  rw [if_neg htime, hok]
  dsimp only
  rw [hdec]

/-- `extWrongNext` attempts at `q1` succeed with `wrongNextResult`
(for every unused time-budget argument). -/
theorem extWrongNext_run_q1 (t : ℚ) :
    solve_single_quiz extWrongNext "a@b.c" "sek" (.str urlQ1) t = .ok wrongNextResult := by
  rfl

/-- `extWrongNext` attempts at `q7` produce the same result (the page
and grading response are URL-independent). -/
theorem extWrongNext_run_q7 (t : ℚ) :
    solve_single_quiz extWrongNext "a@b.c" "sek" (.str "https://q.example/q7") t =
      .ok wrongNextResult := by
  rfl

/-- `extCycle` attempts at `q1`. -/
theorem extCycle_run_q1 (t : ℚ) :
    solve_single_quiz extCycle "a@b.c" "sek" (.str urlQ1) t = .ok cycleResult1 := by
  rfl

/-- `extCycle` attempts at `q2`. -/
theorem extCycle_run_q2 (t : ℚ) :
    solve_single_quiz extCycle "a@b.c" "sek" (.str "https://q.example/q2") t =
      .ok cycleResult2 := by
  rfl

/-- C1 counterexample: the grading endpoint answers
`{"correct": false, "url": "https://q.example/q7"}` on every submission,
yet the chain driver re-attempts `q1` (the second history entry is `q1`
again) instead of advancing to `q7`: with retries and time remaining the
driver retries the current question despite the supplied next URL. -/
theorem c1_wrong_with_next_reattempts :
    (match solve_quiz extWrongNext clockC1 "a@b.c" "sek" urlQ1 170 5 with
      | .ok (some rep) => (pyGet rep "status", historyUrls rep)
      | _ => (.none, [])) =
      (.str "timeout", [.str urlQ1, .str urlQ1, .str "https://q.example/q7"]) := by
  have hc0 : ¬ clockC1 0 > 170 := by norm_num [clockC1]
  have hc1 : ¬ clockC1 1 > 170 := by norm_num [clockC1]
  have hc2 : ¬ clockC1 2 > 170 := by norm_num [clockC1]
  have hc3 : clockC1 3 > 170 := by norm_num [clockC1]
  have hurl7 : pyGet wrongNextResult "url" = .str "https://q.example/q7" := by decide
  have s1 := loopRetryStep extWrongNext clockC1 "a@b.c" "sek" 170 4 0 (.str urlQ1) [] 0
    wrongNextResult (extWrongNext_run_q1 _) hc0
    (chainDecision_retry 1 (170 - clockC1 0) wrongNextResult (by decide) (by decide)
      (by norm_num [clockC1]))
  have s2 := loopAdvanceStep extWrongNext clockC1 "a@b.c" "sek" 170 3 1 (.str urlQ1)
    ([] ++ [histEntry (.str urlQ1) 1 wrongNextResult (clockC1 0)]) 1
    wrongNextResult (.str "https://q.example/q7") (extWrongNext_run_q1 _) hc1
    ((chainDecision_advance_wrong 2 (170 - clockC1 1) wrongNextResult (by decide) (by decide)
      (fun h => absurd h.1 (by decide))).trans (congrArg ChainAct.advance hurl7))
  have s3 := loopAdvanceStep extWrongNext clockC1 "a@b.c" "sek" 170 2 2
    (.str "https://q.example/q7")
    ([] ++ [histEntry (.str urlQ1) 1 wrongNextResult (clockC1 0)] ++
      [histEntry (.str urlQ1) 2 wrongNextResult (clockC1 1)]) 0
    wrongNextResult (.str "https://q.example/q7") (extWrongNext_run_q7 _) hc2
    ((chainDecision_advance_wrong 1 (170 - clockC1 2) wrongNextResult (by decide) (by decide)
      (fun h => absurd h.2 (by norm_num [clockC1]))).trans (congrArg ChainAct.advance hurl7))
  have s4 := loopTimeoutStep extWrongNext clockC1 "a@b.c" "sek" 170 1 3
    ⟨.str "https://q.example/q7",
      [] ++ [histEntry (.str urlQ1) 1 wrongNextResult (clockC1 0)] ++
        [histEntry (.str urlQ1) 2 wrongNextResult (clockC1 1)] ++
        [histEntry (.str "https://q.example/q7") 1 wrongNextResult (clockC1 2)], 0⟩ hc3
  have total : solve_quiz extWrongNext clockC1 "a@b.c" "sek" urlQ1 170 5 =
      .ok (some (timeoutReport
        ([] ++ [histEntry (.str urlQ1) 1 wrongNextResult (clockC1 0)] ++
          [histEntry (.str urlQ1) 2 wrongNextResult (clockC1 1)] ++
          [histEntry (.str "https://q.example/q7") 1 wrongNextResult (clockC1 2)])
        (clockC1 3))) := s1.trans (s2.trans (s3.trans s4))
  rw [total]
  decide

/-- C1 (amended): on a graded-incorrect (or error) result carrying a
next URL, the chain loop retries the current question exactly when the
incremented attempt count is below `max_retries_per_question` (2) and
more than 30 seconds of budget remain; only otherwise does it advance to
the supplied next URL.  It never finishes in this situation. -/
theorem c1_wrong_with_next_policy (ext : Ext) (clock : Nat → ℚ) (email secret : String)
    (timeout : ℚ) (fuel k : Nat) (cur : PyVal) (hist : List PyVal) (attempts : Nat)
    (r : PyVal)
    (hok : solve_single_quiz ext email secret cur (timeout - clock k) = .ok r)
    (htime : ¬ clock k > timeout)
    (hwrong : pyTruthy (pyGet r "correct") = false)
    (hurl : pyTruthy (pyGet r "url") = true) :
    solveQuizLoop ext clock email secret timeout (fuel + 1) ⟨cur, hist, attempts⟩ k =
      (if attempts + 1 < maxRetriesPerQuestion ∧ timeout - clock k > 30 then
        solveQuizLoop ext clock email secret timeout fuel
          ⟨cur, hist ++ [histEntry cur (attempts + 1) r (clock k)], attempts + 1⟩ (k + 1)
      else
        solveQuizLoop ext clock email secret timeout fuel
          ⟨pyGet r "url", hist ++ [histEntry cur (attempts + 1) r (clock k)], 0⟩ (k + 1)) := by
  by_cases hc : attempts + 1 < maxRetriesPerQuestion ∧ timeout - clock k > 30
  · rw [if_pos hc]
    exact loopRetryStep ext clock email secret timeout fuel k cur hist attempts r hok htime
      (chainDecision_retry _ _ _ hwrong hc.1 hc.2)
  · rw [if_neg hc]
    exact loopAdvanceStep ext clock email secret timeout fuel k cur hist attempts r
      (pyGet r "url") hok htime (chainDecision_advance_wrong _ _ _ hwrong hurl hc)

/-- C1 witness: a first attempt (incremented count 1 < 2) with 170
seconds left lands in the retry/advance conditional of the policy. -/
theorem c1_wrong_with_next_policy_witness :
    solveQuizLoop extWrongNext clockC1 "a@b.c" "sek" 170 1 ⟨.str urlQ1, [], 0⟩ 0 =
      (if 0 + 1 < maxRetriesPerQuestion ∧ (170 : ℚ) - clockC1 0 > 30 then
        solveQuizLoop extWrongNext clockC1 "a@b.c" "sek" 170 0
          ⟨.str urlQ1,
            [] ++ [histEntry (.str urlQ1) (0 + 1) wrongNextResult (clockC1 0)],
            0 + 1⟩ 1
      else
        solveQuizLoop extWrongNext clockC1 "a@b.c" "sek" 170 0
          ⟨pyGet wrongNextResult "url",
            [] ++ [histEntry (.str urlQ1) (0 + 1) wrongNextResult (clockC1 0)],
            0⟩ 1) :=
  c1_wrong_with_next_policy extWrongNext clockC1 "a@b.c" "sek" 170 0 0 (.str urlQ1) [] 0
    wrongNextResult (extWrongNext_run_q1 _) (by norm_num [clockC1]) (by decide) (by decide)

/-- C2 counterexample: a grading chain looping `q1 → q2 → q1` is
followed blindly — the history attempts `q1` twice (no cycle guard, no
break on reappearance); the run ends only because the deadline check
fires, with status `timeout`. -/
theorem c2_cycle_reattempted :
    (match solve_quiz extCycle clockCyc "a@b.c" "sek" urlQ1 170 5 with
      | .ok (some rep) => (pyGet rep "status", historyUrls rep)
      | _ => (.none, [])) =
      (.str "timeout", [.str urlQ1, .str "https://q.example/q2", .str urlQ1]) := by
  have hc0 : ¬ clockCyc 0 > 170 := by norm_num [clockCyc]
  have hc1 : ¬ clockCyc 1 > 170 := by norm_num [clockCyc]
  have hc2 : ¬ clockCyc 2 > 170 := by norm_num [clockCyc]
  have hc3 : clockCyc 3 > 170 := by norm_num [clockCyc]
  have hu1 : pyGet cycleResult1 "url" = .str "https://q.example/q2" := by decide
  have hu2 : pyGet cycleResult2 "url" = .str urlQ1 := by decide
  have s1 := loopAdvanceStep extCycle clockCyc "a@b.c" "sek" 170 4 0 (.str urlQ1) [] 0
    cycleResult1 (.str "https://q.example/q2") (extCycle_run_q1 _) hc0
    ((chainDecision_advance_correct 1 (170 - clockCyc 0) cycleResult1 (by decide)
      (by decide)).trans (congrArg ChainAct.advance hu1))
  have s2 := loopAdvanceStep extCycle clockCyc "a@b.c" "sek" 170 3 1
    (.str "https://q.example/q2")
    ([] ++ [histEntry (.str urlQ1) 1 cycleResult1 (clockCyc 0)]) 0
    cycleResult2 (.str urlQ1) (extCycle_run_q2 _) hc1
    ((chainDecision_advance_correct 1 (170 - clockCyc 1) cycleResult2 (by decide)
      (by decide)).trans (congrArg ChainAct.advance hu2))
  have s3 := loopAdvanceStep extCycle clockCyc "a@b.c" "sek" 170 2 2 (.str urlQ1)
    ([] ++ [histEntry (.str urlQ1) 1 cycleResult1 (clockCyc 0)] ++
      [histEntry (.str "https://q.example/q2") 1 cycleResult2 (clockCyc 1)]) 0
    cycleResult1 (.str "https://q.example/q2") (extCycle_run_q1 _) hc2
    ((chainDecision_advance_correct 1 (170 - clockCyc 2) cycleResult1 (by decide)
      (by decide)).trans (congrArg ChainAct.advance hu1))
  have s4 := loopTimeoutStep extCycle clockCyc "a@b.c" "sek" 170 1 3
    ⟨.str "https://q.example/q2",
      [] ++ [histEntry (.str urlQ1) 1 cycleResult1 (clockCyc 0)] ++
        [histEntry (.str "https://q.example/q2") 1 cycleResult2 (clockCyc 1)] ++
        [histEntry (.str urlQ1) 1 cycleResult1 (clockCyc 2)], 0⟩ hc3
  have total : solve_quiz extCycle clockCyc "a@b.c" "sek" urlQ1 170 5 =
      .ok (some (timeoutReport
        ([] ++ [histEntry (.str urlQ1) 1 cycleResult1 (clockCyc 0)] ++
          [histEntry (.str "https://q.example/q2") 1 cycleResult2 (clockCyc 1)] ++
          [histEntry (.str urlQ1) 1 cycleResult1 (clockCyc 2)])
        (clockCyc 3))) := s1.trans (s2.trans (s3.trans s4))
  rw [total]
  decide

/-- C2 (amended): the chain driver maintains no visited set.  (a) The
only loop-breaking mechanism on a cyclic chain is the global deadline
check: whenever the loop-top elapsed value exceeds the budget, the loop
returns a timeout report immediately.  (b) On a graded-correct result
with a next URL, the driver advances to that URL unconditionally — for
every history, including histories already containing that URL — and
attempts it afresh. -/
theorem c2_no_cycle_guard :
    (∀ (ext : Ext) (clock : Nat → ℚ) (email secret : String) (timeout : ℚ)
        (fuel k : Nat) (st : ChainSt), clock k > timeout →
      solveQuizLoop ext clock email secret timeout (fuel + 1) st k =
        .ok (some (timeoutReport st.history (clock k)))) ∧
    (∀ (ext : Ext) (clock : Nat → ℚ) (email secret : String) (timeout : ℚ)
        (fuel k : Nat) (cur : PyVal) (hist : List PyVal) (attempts : Nat) (r : PyVal),
      solve_single_quiz ext email secret cur (timeout - clock k) = .ok r →
      ¬ clock k > timeout →
      pyTruthy (pyGet r "correct") = true →
      pyTruthy (pyGet r "url") = true →
      solveQuizLoop ext clock email secret timeout (fuel + 1) ⟨cur, hist, attempts⟩ k =
        solveQuizLoop ext clock email secret timeout fuel
          ⟨pyGet r "url", hist ++ [histEntry cur (attempts + 1) r (clock k)], 0⟩ (k + 1)) := by
  constructor
  · exact loopTimeoutStep
  · intro ext clock email secret timeout fuel k cur hist attempts r hok htime hcor hurl
    exact loopAdvanceStep ext clock email secret timeout fuel k cur hist attempts r
      (pyGet r "url") hok htime (chainDecision_advance_correct _ _ _ hcor hurl)

/-- Trace step: past-deadline iterations produce no trace entry. -/
theorem traceTimeoutStep (ext : Ext) (clock : Nat → ℚ) (sched : Nat → List ℚ)
    (email secret : String) (timeout : ℚ) (fuel k i : Nat) (st : ChainSt)
    (h : clock k > timeout) :
    chainTrace ext clock sched email secret timeout (fuel + 1) st k i = [] := by
  conv_lhs => rw [chainTrace]
  rw [if_pos h]

/-- Trace step: a retried iteration contributes its loop-top time and
its scheduled operation times, then continues. -/
theorem traceRetryStep (ext : Ext) (clock : Nat → ℚ) (sched : Nat → List ℚ)
    (email secret : String) (timeout : ℚ) (fuel k i : Nat) (cur : PyVal)
    (hist : List PyVal) (attempts : Nat) (r : PyVal)
    (hok : solve_single_quiz ext email secret cur (timeout - clock k) = .ok r)
    (htime : ¬ clock k > timeout)
    (hdec : chainDecision (attempts + 1) (timeout - clock k) r = .retry) :
    chainTrace ext clock sched email secret timeout (fuel + 1) ⟨cur, hist, attempts⟩ k i =
      (clock k, sched i) ::
        chainTrace ext clock sched email secret timeout fuel
          ⟨cur, hist ++ [histEntry cur (attempts + 1) r (clock k)], attempts + 1⟩
          (k + 1) (i + 1) := by
  conv_lhs => rw [chainTrace]
  dsimp only
  rw [if_neg htime, hok]
  dsimp only
  rw [hdec]

/-- `extWrongStop` attempts at `q1`. -/
theorem extWrongStop_run_q1 (t : ℚ) :
    solve_single_quiz extWrongStop "a@b.c" "sek" (.str urlQ1) t = .ok wrongStopResult := by
  rfl

/-- C2 witness: the timeout guard fires at elapsed 171 > 170, and a
correct result advances even when the starting history already records
the next URL (`q2`). -/
theorem c2_no_cycle_guard_witness :
    (solveQuizLoop extCycle clockCyc "a@b.c" "sek" 170 1 ⟨.str urlQ1, [], 0⟩ 3 =
      .ok (some (timeoutReport [] (clockCyc 3)))) ∧
    (solveQuizLoop extCycle clockCyc "a@b.c" "sek" 170 1
        ⟨.str urlQ1, [histEntry (.str "https://q.example/q2") 1 (.dict []) 0], 0⟩ 0 =
      solveQuizLoop extCycle clockCyc "a@b.c" "sek" 170 0
        ⟨pyGet cycleResult1 "url",
          [histEntry (.str "https://q.example/q2") 1 (.dict []) 0] ++
            [histEntry (.str urlQ1) (0 + 1) cycleResult1 (clockCyc 0)],
          0⟩ 1) :=
  ⟨c2_no_cycle_guard.1 extCycle clockCyc "a@b.c" "sek" 170 0 3
      ⟨.str urlQ1, [], 0⟩ (by norm_num [clockCyc]),
    c2_no_cycle_guard.2 extCycle clockCyc "a@b.c" "sek" 170 0 0 (.str urlQ1)
      [histEntry (.str "https://q.example/q2") 1 (.dict []) 0] 0
      cycleResult1 (extCycle_run_q1 _) (by norm_num [clockCyc]) (by decide) (by decide)⟩

/-- C4 counterexample: a physically consistent schedule (monotone clock,
every operation starting between its iteration's loop-top read and the
next read) in which a network operation starts at elapsed 171, after the
170-second budget: the deadline is checked only at the top of each chain
iteration, so operations of an iteration that began before the deadline
may start after it. -/
theorem c4_late_network_op :
    chainSchedConsistent clockC4 schedC4 ∧
    (171 : ℚ) ∈ (chainTrace extWrongStop clockC4 schedC4 "a@b.c" "sek" 170 5
      ⟨.str urlQ1, [], 0⟩ 0 0).flatMap Prod.snd ∧
    ¬ ((171 : ℚ) ≤ 170) := by
  have hc0 : ¬ clockC4 0 > 170 := by norm_num [clockC4]
  have hc1 : clockC4 1 > 170 := by norm_num [clockC4]
  refine ⟨⟨?_, ?_⟩, ?_, by norm_num⟩
  · intro k
    rcases Nat.eq_zero_or_pos k with hk | hk
    · subst hk; norm_num [clockC4]
    · have h1 : k ≠ 0 := Nat.pos_iff_ne_zero.mp hk
      simp [clockC4, h1]
  · intro i t ht
    rcases Nat.eq_zero_or_pos i with hi | hi
    · subst hi
      simp only [schedC4, if_true, List.mem_singleton, reduceIte] at ht
      subst ht
      constructor <;> norm_num [clockC4]
    · have h1 : i ≠ 0 := Nat.pos_iff_ne_zero.mp hi
      simp [schedC4, h1] at ht
  · rw [traceRetryStep extWrongStop clockC4 schedC4 "a@b.c" "sek" 170 4 0 0 (.str urlQ1)
        [] 0 wrongStopResult (extWrongStop_run_q1 _) hc0
        (chainDecision_retry 1 (170 - clockC4 0) wrongStopResult (by decide) (by decide)
          (by norm_num [clockC4])),
      traceTimeoutStep extWrongStop clockC4 schedC4 "a@b.c" "sek" 170 3 1 1 _ hc1]
    simp [schedC4]

/-- C4 (amended): the global deadline gates only the start of each chain
iteration: (a) every iteration that invokes `solve_single_quiz` (and so
may start network operations) begins at a loop-top elapsed value within
the budget; (b) `solve_single_quiz` itself ignores its
`time_left_seconds` argument entirely, so nothing below the loop-top
check constrains when the operations inside an attempt start. -/
theorem c4_deadline_gates_iteration_start_only :
    (∀ (ext : Ext) (clock : Nat → ℚ) (sched : Nat → List ℚ) (email secret : String)
        (timeout : ℚ) (fuel : Nat) (st : ChainSt) (k i : Nat)
        (e : ℚ × List ℚ),
      e ∈ chainTrace ext clock sched email secret timeout fuel st k i →
      e.1 ≤ timeout) ∧
    (∀ (ext : Ext) (email secret : String) (u : PyVal) (t₁ t₂ : ℚ),
      solve_single_quiz ext email secret u t₁ = solve_single_quiz ext email secret u t₂) := by
  constructor
  · intro ext clock sched email secret timeout fuel
    induction fuel with
    | zero =>
      intro st k i e he
      rw [chainTrace] at he
      simp at he
    | succ n ih =>
      intro st k i e he
      rw [chainTrace] at he
      by_cases h : clock k > timeout
      · rw [if_pos h] at he
        simp at he
      · rw [if_neg h] at he
        dsimp only at he
        rcases hs : solve_single_quiz ext email secret st.currentUrl (timeout - clock k) with
          er | r
        · rw [hs] at he
          simp only [List.mem_singleton] at he
          subst he
          exact le_of_not_lt h
        · rw [hs] at he
          dsimp only at he
          rcases hd : chainDecision (st.attempts + 1) (timeout - clock k) r with
            _ | u | _ | reason <;> rw [hd] at he
          · rcases List.mem_cons.mp he with he1 | he2
            · subst he1; exact le_of_not_lt h
            · exact ih _ _ _ _ he2
          · rcases List.mem_cons.mp he with he1 | he2
            · subst he1; exact le_of_not_lt h
            · exact ih _ _ _ _ he2
          · simp only [List.mem_singleton] at he
            subst he; exact le_of_not_lt h
          · simp only [List.mem_singleton] at he
            subst he; exact le_of_not_lt h
  · intro ext email secret u t₁ t₂
    rfl

/-- C4 witness: the bounded-start part applied to the concrete
late-operation run, and time-budget independence at two distinct
budgets. -/
theorem c4_deadline_gates_witness :
    ((clockC4 0, schedC4 0).1 ≤ 170) ∧
    (solve_single_quiz extWrongStop "a@b.c" "sek" (.str urlQ1) 5 =
      solve_single_quiz extWrongStop "a@b.c" "sek" (.str urlQ1) 99) :=
  ⟨c4_deadline_gates_iteration_start_only.1 extWrongStop clockC4 schedC4 "a@b.c" "sek"
      170 5 ⟨.str urlQ1, [], 0⟩ 0 0 (clockC4 0, schedC4 0)
      (by
        rw [traceRetryStep extWrongStop clockC4 schedC4 "a@b.c" "sek" 170 4 0 0 (.str urlQ1)
            [] 0 wrongStopResult (extWrongStop_run_q1 _) (by norm_num [clockC4])
            (chainDecision_retry 1 (170 - clockC4 0) wrongStopResult (by decide) (by decide)
              (by norm_num [clockC4]))]
        exact List.mem_cons_self _ _),
    c4_deadline_gates_iteration_start_only.2 extWrongStop "a@b.c" "sek" (.str urlQ1) 5 99⟩

/-! ### C3: exception discipline of solve_single_quiz / solve_quiz -/

/-- The un-guarded initial render (line 131): a failing page fetch
raises out of `solve_single_quiz`. -/
theorem solve_single_fetch_error (ext : Ext) (email secret u : String) (t : ℚ) (msg : String)
    (hfetch : ext.fetch u = .error msg) :
    solve_single_quiz ext email secret (.str u) t = .error (.other msg) := by
  unfold solve_single_quiz
  dsimp only
  rw [hfetch]

/-- An exception raised by `solve_single_quiz` propagates out of the
chain loop: `solve_quiz` has no handler around the per-question call. -/
theorem loopErrorStep (ext : Ext) (clock : Nat → ℚ) (email secret : String)
    (timeout : ℚ) (fuel k : Nat) (st : ChainSt) (e : PyExn)
    (htime : ¬ clock k > timeout)
    (herr : solve_single_quiz ext email secret st.currentUrl (timeout - clock k) = .error e) :
    solveQuizLoop ext clock email secret timeout (fuel + 1) st k = .error e := by
  conv_lhs => rw [solveQuizLoop]
  dsimp only
  rw [if_neg htime, herr]

/-- STEP 7 (lines 405-441) never raises when every resolver reply is
step7-safe: the only raise site is `raw_answer.strip()` on a truthy
non-string answer. -/
theorem step7Run_ok (ext : Ext) (questionText ctx : String) (taskInfo : PyVal)
    (st4 : PyVal × PyVal) (a b c : Nat)
    (hllm : ∀ q cc, ∃ d, ask_llm_for_answer ext.hasToken (ext.llm q cc) = .ok d ∧
      step7Safe (pyGetD d "answer" (.str "")) = true) :
    ∃ s7, step7Run ext questionText ctx taskInfo st4 a b c = .ok s7 := by
  unfold step7Run
  by_cases h1 : st4.1 = PyVal.none
  · rw [if_pos h1]
    obtain ⟨lr, hlr, hsafe⟩ := hllm (mainPrompt questionText
      (pyGetD taskInfo "expected_answer_type" (.str "unknown"))) ctx
    rw [hlr]
    dsimp only
    split
    · rename_i hc
      rcases hraw : pyGetD lr "answer" (.str "") with _ | bb | nn | qq | s | xs | kvs <;>
        rw [hraw] at hc hsafe
      · simp [pyTruthy] at hc
      · obtain ⟨hct, hcn⟩ := hc
        simp only [step7Safe, hct, Bool.true_and, Bool.not_not] at hsafe
        exact absurd hsafe hcn
      · obtain ⟨hct, hcn⟩ := hc
        simp only [step7Safe, hct, Bool.true_and, Bool.not_not] at hsafe
        exact absurd hsafe hcn
      · obtain ⟨hct, hcn⟩ := hc
        simp only [step7Safe, hct, Bool.true_and, Bool.not_not] at hsafe
        exact absurd hsafe hcn
      · exact ⟨_, rfl⟩
      · obtain ⟨hct, hcn⟩ := hc
        simp only [step7Safe, hct, Bool.true_and, Bool.not_not] at hsafe
        exact absurd hsafe hcn
      · obtain ⟨hct, hcn⟩ := hc
        simp only [step7Safe, hct, Bool.true_and, Bool.not_not] at hsafe
        exact absurd hsafe hcn
    · exact ⟨_, rfl⟩
  · rw [if_neg h1]
    exact ⟨_, rfl⟩

/-- C3 counterexample: when every external collaborator fails on every
call — in particular the page renderer — `solve_quiz` does NOT run to
completion with an all-error history: the exception raised by the
un-wrapped render call (line 131) crosses both the `solve_single_quiz`
and the `solve_quiz` component boundaries uncaught, and no report is
produced. -/
theorem c3_fetch_exception_crosses_boundary :
    solve_quiz extFetchFail clockC1 "a@b.c" "sek" urlQ1 170 5 = .error (.other "net down") := by
  show solveQuizLoop extFetchFail clockC1 "a@b.c" "sek" 170 (4 + 1) ⟨.str urlQ1, [], 0⟩ 0 = _
  exact loopErrorStep extFetchFail clockC1 "a@b.c" "sek" 170 4 0 ⟨.str urlQ1, [], 0⟩
    (.other "net down") (by norm_num [clockC1])
    (solve_single_fetch_error extFetchFail "a@b.c" "sek" urlQ1 _ "net down" rfl)

/-- A content-safe reply stream never makes `ask_llm_for_answer` raise:
every other transport failure is returned as an error dict by the retry
loop, extraction failures short of the `.strip()` site return the
malformed-response dict, and parsing is total. -/
theorem ask_llm_ok_of_contentSafe (hasToken : Bool) (net : Nat → LlmAttempt)
    (h : contentSafe (askLlmLoop net 5 5 0) = true) :
    ∃ d, ask_llm_for_answer hasToken net = .ok d := by
  unfold ask_llm_for_answer
  by_cases ht : hasToken = true
  · rw [if_neg (not_not_intro ht)]
    rcases hout : askLlmLoop net 5 5 0 with d | result
    · exact ⟨_, rfl⟩
    · dsimp only
      rw [hout] at h
      simp only [contentSafe] at h
      rcases hex : llmExtractContent result with e | oc
      · rw [hex] at h
        simp at h
      · rcases oc with _ | content
        · exact ⟨_, rfl⟩
        · exact ⟨_, rfl⟩
  · rw [if_pos ht]
    exact ⟨_, rfl⟩

/-- C3 (amended): four sites raise uncaught across the component
boundary — the un-guarded initial render, the resolver's `.strip()` on a
non-string `choices[0].message.content` in a 200 reply
(`llm_interface.py` line 240), the `.get` on a `task_info` string that
parses to a non-object JSON value, and STEP 7's `.strip()` on a truthy
non-string answer.  When the render succeeds and every reply of the
reasoning transport avoids the three reply-borne shapes — its 200
bodies carry string content (`contentSafe`), and the answer value it
delivers avoids the `taskSafe`/`step7Safe` shapes — `solve_single_quiz`
returns a result dict for every behaviour of the remaining
collaborators (failing scrapes, downloads, API calls, reasoning
transports and grading posts included): those failures are all
recovered locally and surfaced as data. -/
theorem c3_no_raise_when_raise_sites_avoided (ext : Ext) (email secret u : String) (t : ℚ)
    (html text0 : String)
    (hfetch : ext.fetch u = .ok (html, text0))
    (hcontent : ∀ q cc, contentSafe (askLlmLoop (ext.llm q cc) 5 5 0) = true)
    (hanswer : ∀ q cc d, ask_llm_for_answer ext.hasToken (ext.llm q cc) = .ok d →
      taskSafe (pyGetD d "answer" (.str "\x7b\x7d")) = true ∧
      step7Safe (pyGetD d "answer" (.str "")) = true) :
    ∃ out, solve_single_quiz ext email secret (.str u) t = .ok out := by
  unfold solve_single_quiz
  dsimp only
  rw [hfetch]
  dsimp only
  obtain ⟨qa, hqa⟩ := ask_llm_ok_of_contentSafe ext.hasToken _
    (hcontent (analysisPrompt (pyStripStr (augmentText text0 html))) (augmentText text0 html))
  rw [hqa]
  dsimp only
  obtain ⟨hts, -⟩ := hanswer _ _ qa hqa
  have hstep : ∀ q cc, ∃ d, ask_llm_for_answer ext.hasToken (ext.llm q cc) = .ok d ∧
      step7Safe (pyGetD d "answer" (.str "")) = true := by
    intro q cc
    obtain ⟨d, hd⟩ := ask_llm_ok_of_contentSafe ext.hasToken (ext.llm q cc) (hcontent q cc)
    exact ⟨d, hd, (hanswer q cc d hd).2⟩
  rcases hv : pyGetD qa "answer" (.str "\x7b\x7d") with _ | bb | nn | qq | s | xs | kvs <;>
    dsimp only
  case str =>
    rw [hv] at hts
    dsimp only [taskSafe] at hts
    rcases hjl : jsonLoads s with _ | v <;> rw [hjl] at hts <;> try dsimp only
    · obtain ⟨s7, hs7⟩ := step7Run_ok ext _ _ _ _ _ _ _ hstep
      rw [hs7]
      exact ⟨_, rfl⟩
    · rcases v with _ | vb | vn | vq | vs | vxs | vkvs <;> dsimp only at hts ⊢
      · exact absurd hts (by decide)
      · exact absurd hts (by decide)
      · exact absurd hts (by decide)
      · exact absurd hts (by decide)
      · exact absurd hts (by decide)
      · exact absurd hts (by decide)
      · obtain ⟨s7, hs7⟩ := step7Run_ok ext _ _ _ _ _ _ _ hstep
        rw [hs7]
        exact ⟨_, rfl⟩
  all_goals
    obtain ⟨s7, hs7⟩ := step7Run_ok ext _ _ _ _ _ _ _ hstep
  all_goals rw [hs7]
  all_goals exact ⟨_, rfl⟩

/-- C3 witness: under `extC7` (render succeeds, every reasoning call
fails with a connection error, downloads and API calls fail) the
hypotheses hold and the attempt completes without raising. -/
theorem c3_no_raise_witness :
    extC7.fetch urlQ1 = .ok ("<html></html>", pageText1) ∧
    (∀ q cc, contentSafe (askLlmLoop (extC7.llm q cc) 5 5 0) = true) ∧
    (∀ q cc d, ask_llm_for_answer extC7.hasToken (extC7.llm q cc) = .ok d →
      taskSafe (pyGetD d "answer" (.str "\x7b\x7d")) = true ∧
      step7Safe (pyGetD d "answer" (.str "")) = true) ∧
    ∃ out, solve_single_quiz extC7 "a@b.c" "sek" (.str urlQ1) 0 = .ok out := by
  have hanswer : ∀ q cc d, ask_llm_for_answer extC7.hasToken (extC7.llm q cc) = .ok d →
      taskSafe (pyGetD d "answer" (.str "\x7b\x7d")) = true ∧
      step7Safe (pyGetD d "answer" (.str "")) = true := by
    intro q cc d hd
    have h0 : ask_llm_for_answer extC7.hasToken (extC7.llm q cc) =
        Except.ok (llmErr "Connection failed: down") := rfl
    rw [h0] at hd
    injection hd with h1
    subst h1
    exact ⟨by decide, by decide⟩
  exact ⟨rfl, fun q cc => rfl, hanswer,
    c3_no_raise_when_raise_sites_avoided extC7 "a@b.c" "sek" urlQ1 0 "<html></html>" pageText1
      rfl (fun q cc => rfl) hanswer⟩

/-! ### C7: the STEP-9 absolute fallback -/

/-- Every result dict of STEP 10 carries the submitted answer under
`used_answer`. -/
theorem step10Submit_used_answer (ext : Ext) (email secret quizUrl submitU : String)
    (answer llmInfo : PyVal) :
    pyGet (step10Submit ext email secret quizUrl submitU answer llmInfo) "used_answer" =
      answer := by
  unfold step10Submit
  dsimp only
  split
  · rfl
  · split
    · split <;> rfl
    · rfl
    · rfl

/-- C7 counterexample: under `extC7` every resolution path fails (all
reasoning calls fail with connection errors) and the page text contains
no numeric literal, yet the attempt submits the non-numeric heading text
`"Hello World"` — the grading POST goes through and is accepted — rather
than emitting the sentinel. -/
theorem c7_heading_submitted_not_sentinel :
    findFirstNumberStr pageText1 = Option.none ∧
    (match solve_single_quiz extC7 "a@b.c" "sek" (.str urlQ1) 0 with
      | .ok r => (pyGet r "used_answer", pyGet r "correct")
      | .error _ => (.none, .none)) = (.str "Hello World", .bool true) := by
  constructor
  · decide
  · decide

/-- C7 (amended): when every preceding resolution path fails (the STEP-7
answer is `None`), the value forwarded to submission is exactly the
STEP-9 fallback; and when the page text has no numeric literal that
fallback is the first `h1/h2/h3/strong/b` heading whose stripped text
has length in (0, 100) — the sentinel `"unknown"` is emitted only when
no such heading exists either, so non-numeric guessed content can be
submitted. -/
theorem c7_fallback_tries_headings_before_sentinel (ext : Ext)
    (email secret u html decoded text questionText : String)
    (headings : List String) (taskInfo : PyVal) (submitUrl : Option String) (info : PyVal)
    (hnum : findFirstNumberStr text = Option.none) :
    pyGet (finishResult ext email secret u html decoded text questionText headings taskInfo
      submitUrl (PyVal.none, info)) "used_answer" = step9Fallback text headings ∧
    step9Fallback text headings =
      (match (headings.filterMap (fun h =>
          let t := pyStripStr h
          if 0 < t.length ∧ t.length < 100 then some t else Option.none)).head? with
        | some t => PyVal.str t
        | Option.none => PyVal.str "unknown") := by
  constructor
  · unfold finishResult
    dsimp only
    rw [if_neg (show ¬(PyVal.none ≠ PyVal.none) from fun h => h rfl)]
    rw [if_pos (show PyVal.none = PyVal.none ∨ pyEq PyVal.none (PyVal.str "") = true from
      Or.inl rfl)]
    rcases submitUrl with _ | su
    · rfl
    · dsimp only
      split
      · rfl
      · exact step10Submit_used_answer ext email secret u su
          (step9Fallback text headings) info
  · unfold step9Fallback
    rw [hnum]

/-- C7 witness: concrete failed-resolution finish whose page text has no
number and whose soup has the heading `"Hello World"`. -/
theorem c7_fallback_witness :
    findFirstNumberStr pageText1 = Option.none ∧
    pyGet (finishResult extC7 "a@b.c" "sek" urlQ1 "<html></html>" "" pageText1 pageText1
      ["Hello World"] (.dict []) (some "https://q.example/submit") (PyVal.none, .dict []))
      "used_answer" = step9Fallback pageText1 ["Hello World"] ∧
    step9Fallback pageText1 ["Hello World"] = .str "Hello World" := by
  have h := c7_fallback_tries_headings_before_sentinel extC7 "a@b.c" "sek" urlQ1
    "<html></html>" "" pageText1 pageText1 ["Hello World"] (.dict [])
    (some "https://q.example/submit") (.dict []) (by decide)
  exact ⟨by decide, h.1, by decide⟩

/-! ### C8: the 1 MiB submission payload gate -/

/-- `jsonEscapeChar` keeps a plain ASCII letter. -/
theorem flatMap_jsonEscapeChar_a (n : Nat) :
    (List.replicate n 'a').flatMap jsonEscapeChar = List.replicate n 'a' := by
  induction n with
  | zero => rfl
  | succ n ih =>
    rw [List.replicate_succ, List.flatMap_cons, ih]
    rfl

/-- UTF-8 size of an all-ASCII-letter run. -/
theorem sum_utf8_replicate_a (n : Nat) :
    ((List.replicate n 'a').map Char.utf8Size).sum = n := by
  induction n with
  | zero => rfl
  | succ n ih =>
    rw [List.replicate_succ, List.map_cons, List.sum_cons, ih,
      show Char.utf8Size 'a' = 1 from rfl]
    omega

/-- Serialized size of the oversized answer string. -/
theorem bigAnswer_size : pyUtf8Len (jsonDumps bigAnswer) = 1048579 := by
  show pyUtf8Len (jsonEscape (String.mk (List.replicate 1048577 'a'))) = _
  unfold jsonEscape pyUtf8Len
  dsimp only
  rw [flatMap_jsonEscapeChar_a, List.map_append, List.sum_append, List.map_cons,
    List.sum_cons, sum_utf8_replicate_a, show (Char.ofNat 34).utf8Size = 1 from rfl]
  rfl

/-- The serialized payload is at least as large as its serialized
`answer` member. -/
theorem payload_size_lower (k1 k2 k3 k4 : String) (v1 v2 v3 v4 : PyVal) :
    pyUtf8Len (jsonDumps v4) ≤
      pyUtf8Len (jsonDumps (.dict [(k1, v1), (k2, v2), (k3, v3), (k4, v4)])) := by
  show pyUtf8Len (jsonDumps v4) ≤
    pyUtf8Len (String.mk [Char.ofNat 123] ++ jsonDumpsKVs _ ++ String.mk [Char.ofNat 125])
  simp only [jsonDumpsKVs, pyUtf8Len_append]
  omega

/-- The witness payload (email `a@b.c`, the fixture URL, the oversized
answer) serializes past the 1 MiB gate. -/
theorem bigAnswer_payload_big :
    pyUtf8Len (jsonDumps (.dict [("email", .str "a@b.c"), ("secret", .str "sek"),
      ("url", .str urlQ1), ("answer", bigAnswer)])) > 1024 * 1024 := by
  have h := payload_size_lower "email" "secret" "url" "answer"
    (.str "a@b.c") (.str "sek") (.str urlQ1) bigAnswer
  rw [bigAnswer_size] at h
  omega

/-- C8: whenever the serialized `\x7bemail, secret, url, answer\x7d`
payload exceeds 1 MiB, STEP 10 returns the local `Payload too large`
error dict — the result is the same for every collaborator environment
`ext`, so in particular no grading POST is issued. -/
theorem c8_payload_gate_blocks_submission (ext : Ext) (email secret quizUrl submitU : String)
    (answer llmInfo : PyVal)
    (hbig : pyUtf8Len (jsonDumps (.dict [("email", .str email), ("secret", .str secret),
      ("url", .str quizUrl), ("answer", answer)])) > 1024 * 1024) :
    step10Submit ext email secret quizUrl submitU answer llmInfo =
      .dict [("correct", .bool false),
        ("error", .str ("Payload too large: " ++
          toString (pyUtf8Len (jsonDumps (.dict [("email", .str email),
            ("secret", .str secret), ("url", .str quizUrl), ("answer", answer)]))) ++
          " bytes (max 1MB)")),
        ("used_answer", answer), ("llm_info", llmInfo)] := by
  unfold step10Submit
  dsimp only
  rw [if_pos hbig]

/-- C8 witness: a 1 MiB-plus answer under an environment whose POST
oracle would report a network failure — the gate returns the local error
dict without consulting it. -/
theorem c8_payload_gate_witness :
    pyUtf8Len (jsonDumps (.dict [("email", .str "a@b.c"), ("secret", .str "sek"),
      ("url", .str urlQ1), ("answer", bigAnswer)])) > 1024 * 1024 ∧
    step10Submit extFetchFail "a@b.c" "sek" urlQ1 "https://q.example/submit" bigAnswer
        (.dict []) =
      .dict [("correct", .bool false),
        ("error", .str ("Payload too large: " ++
          toString (pyUtf8Len (jsonDumps (.dict [("email", .str "a@b.c"),
            ("secret", .str "sek"), ("url", .str urlQ1), ("answer", bigAnswer)]))) ++
          " bytes (max 1MB)")),
        ("used_answer", bigAnswer), ("llm_info", .dict [])] :=
  ⟨bigAnswer_payload_big,
    c8_payload_gate_blocks_submission extFetchFail "a@b.c" "sek" urlQ1
      "https://q.example/submit" bigAnswer (.dict []) bigAnswer_payload_big⟩

end QS
